import Mathlib

/-!
ModelBox: CPU device memory, buffer metadata, the video demuxer and the resize flow unit.

A shallow embedding of

* `src/drivers/devices/cpu/core/cpu_memory.cc`
  (`CpuMemory::ReadFrom`, `CpuMemory::Verify`, `CpuMemoryManager::AllocSharedPtr`,
  `Write`, `Read`, `Copy`, `DeviceMemoryCopy`),
* `src/drivers/devices/cpu/flowunit/video_demuxer/video_demuxer_flowunit.cc`
  (`Reconnect`, `Process`, `WriteEnd`, `WriteData`, `CreateRetryTask` and its timer
  callback, `GetSourceUrl`, `DataPre`, `InitDemuxer`),
* `src/libmodelbox/include/modelbox/buffer.h` (`BufferMeta::Get`, `Buffer::Get`), and
* `src/drivers/devices/cpu/flowunit/resize/resize_flowunit.cc`
  (`CVResizeFlowUnit::Open` and `Process`).

Memory is a flat, byte-addressed store; a pointer is a natural number and
`0` is the null pointer. Values of type `size_t` are naturals below `2 ^ 64`
and `size_t` sums are reduced modulo `2 ^ 64` where the code computes them.
-/

namespace modelbox

/-! ## Status codes -/

/-- The status codes that occur in the embedded code. -/
inductive Status where
  | STATUS_SUCCESS
  | STATUS_FAULT
  | STATUS_INVALID
  | STATUS_BADCONF
  | STATUS_NOTSUPPORT
  | STATUS_NODATA
  | STATUS_CONTINUE
  deriving DecidableEq

open Status

/-- In `status.h` the name `STATUS_OK` denotes the success code. The embedded
code relies on it: `DataPre` compares the result of `InitDemuxer`, which
returns `STATUS_SUCCESS`, against `STATUS_OK`. -/
abbrev STATUS_OK : Status := STATUS_SUCCESS

/-! ## Flat byte memory -/

/-- One byte. -/
abbrev Byte := Fin 256

/-- Byte-addressed memory. -/
abbrev Mem := Nat → Byte

/-- Number of values of `size_t` (a 64-bit unsigned integer). -/
def SIZE_T_RANGE : Nat := 2 ^ 64

/-- Store one byte at address `a`. -/
def store_u8 (mem : Mem) (a : Nat) (b : Byte) : Mem :=
  fun x => if x = a then b else mem x

/-- Byte number `i` of the little-endian representation of `v`. -/
def byte_of (v i : Nat) : Byte :=
  ⟨v / 256 ^ i % 256, Nat.mod_lt _ (by decide)⟩

/-- The store `*(uint64_t *)a = v`: eight bytes, least significant first. -/
def store_u64 (mem : Mem) (a v : Nat) : Mem :=
  fun x => if a ≤ x ∧ x < a + 8 then byte_of v (x - a) else mem x

/-- The load `*(uint64_t *)a`: eight bytes, least significant first. -/
def load_u64 (mem : Mem) (a : Nat) : Nat :=
  (mem a).val + 256 * (mem (a + 1)).val + 65536 * (mem (a + 2)).val
    + 16777216 * (mem (a + 3)).val + 4294967296 * (mem (a + 4)).val
    + 1099511627776 * (mem (a + 5)).val + 281474976710656 * (mem (a + 6)).val
    + 72057594037927936 * (mem (a + 7)).val

/-- The C library `memset(dest, c, n)`. -/
def memset (mem : Mem) (dest : Nat) (c : Byte) (n : Nat) : Mem :=
  fun x => if dest ≤ x ∧ x < dest + n then c else mem x

/-- The C library `memcpy(dest, src, n)` on ranges that do not overlap. -/
def memcpy (mem : Mem) (dest src n : Nat) : Mem :=
  fun x => if dest ≤ x ∧ x < dest + n then mem (src + (x - dest)) else mem x

/-! ## Device memory handles -/

/-- The bookkeeping of a `DeviceMemory` handle that the embedded code reads:
the start of the underlying region, the logical offset, the capacity and the
mutability flag. -/
structure DeviceMemory where
  device_mem_ptr_ : Nat
  offset_ : Nat
  capacity_ : Nat
  is_content_mutable_ : Bool
  deriving DecidableEq

/-- Modelled from the spec: the `DeviceMemory` constructor is declared in
`device_memory.h`, which is not among the sources. `MakeDeviceMemory` "wraps a raw
region with bookkeeping"; the handle covers the logical `size` bytes from the
start of the region and is host-mutable. -/
def CpuMemoryManager.MakeDeviceMemory (mem_ptr size : Nat) : DeviceMemory :=
  { device_mem_ptr_ := mem_ptr, offset_ := 0, capacity_ := size,
    is_content_mutable_ := true }

/-- Modelled from the spec: `DeviceMemory::GetPtr` is declared in
`device_memory.h`, which is not among the sources. "Attempts to obtain a writable
pointer on a frozen handle return null"; otherwise the pointer is the start of
the region advanced by the logical offset. -/
def DeviceMemory.GetPtr (m : DeviceMemory) : Nat :=
  if m.is_content_mutable_ then m.device_mem_ptr_ + m.offset_ else 0

/-- Modelled from the spec: `DeviceMemory::GetConstPtr` is declared in
`device_memory.h`, which is not among the sources. The read-only pointer is the
start of the region advanced by the logical offset. -/
def DeviceMemory.GetConstPtr (m : DeviceMemory) : Nat :=
  m.device_mem_ptr_ + m.offset_

/-- `CpuMemory::Verify`. `MEM_MAGIC_CODE` is a `uint64_t` constant of
`DeviceMemory` whose value is not among the sources. -/
def CpuMemory.Verify (MEM_MAGIC_CODE : Nat) (mem : Mem) (self : DeviceMemory) : Status :=
  let mem_size := (self.offset_ + self.capacity_) % SIZE_T_RANGE
  if mem_size = 0 then
    STATUS_OK
  else
    let magic_code := load_u64 mem (self.device_mem_ptr_ + mem_size)
    if MEM_MAGIC_CODE ≠ magic_code then
      STATUS_FAULT
    else
      STATUS_OK

/-- `CpuMemoryManager::AllocSharedPtr`. The pool's `AllocSharedPtr` is passed as
a function from the requested byte count to the returned pointer (`0` for
`nullptr`); `mem` is the memory as the pool left it. The result is the returned
pointer and the memory afterwards. `sizeof(DeviceMemory::MEM_MAGIC_CODE)` is 8. -/
def CpuMemoryManager.AllocSharedPtr (MEM_MAGIC_CODE : Nat) (mem_pool_AllocSharedPtr : Nat → Nat)
    (mem : Mem) (size : Nat) : Nat × Mem :=
  let mem_size := (size + 8) % SIZE_T_RANGE
  let cpu_mem_ptr := mem_pool_AllocSharedPtr mem_size
  if cpu_mem_ptr = 0 then
    (0, mem)
  else
    (cpu_mem_ptr, store_u64 mem (cpu_mem_ptr + size) MEM_MAGIC_CODE)

/-! ## Host copies -/

/-- Largest size accepted by the bounds-checked copy (`SECUREC_MEM_MAX_LEN`). -/
def SECUREC_MEM_MAX_LEN : Nat := 0x7fffffff

/-- Success code of the bounds-checked C library. -/
def EOK : Nat := 0

/-- Error code of the bounds-checked C library: invalid argument. -/
def EINVAL : Nat := 22

/-- Error code of the bounds-checked C library: size out of range. -/
def ERANGE : Nat := 34

/-- Error code: invalid argument, destination cleared. -/
def EINVAL_AND_RESET : Nat := 150

/-- Error code: size out of range, destination cleared. -/
def ERANGE_AND_RESET : Nat := 162

/-- Error code: ranges overlap, destination cleared. -/
def EOVERLAP_AND_RESET : Nat := 182

/-- The ranges `[dest, dest + count)` and `[src, src + count)` are disjoint and
distinct (`SECUREC_MEMORY_NO_OVERLAP`). -/
def SECUREC_MEMORY_NO_OVERLAP (dest src count : Nat) : Bool :=
  (decide (src < dest) && decide (src + count ≤ dest))
    || (decide (dest < src) && decide (dest + count ≤ src))

/-- The ranges overlap without being equal (`SECUREC_MEMORY_IS_OVERLAP`). -/
def SECUREC_MEMORY_IS_OVERLAP (dest src count : Nat) : Bool :=
  (decide (src < dest) && decide (dest < src + count))
    || (decide (dest < src) && decide (src < dest + count))

/-- The function `memcpy_s(dest, destMax, src, count)` of the bounds-checked C
library `securec` (`<securec.h>`), an external library: on a constraint
violation nothing is copied, an error code is returned, and the destination is
cleared over `destMax` bytes when it is non-null and `destMax` is in range.
The result is the error code and the memory afterwards. -/
def memcpy_s (mem : Mem) (dest destMax src count : Nat) : Nat × Mem :=
  if count ≤ destMax ∧ dest ≠ 0 ∧ src ≠ 0 ∧ destMax ≤ SECUREC_MEM_MAX_LEN ∧ 0 < count
      ∧ SECUREC_MEMORY_NO_OVERLAP dest src count = true then
    (EOK, memcpy mem dest src count)
  else if destMax = 0 ∨ SECUREC_MEM_MAX_LEN < destMax then
    (ERANGE, mem)
  else if dest = 0 ∨ src = 0 then
    if dest ≠ 0 then (EINVAL_AND_RESET, memset mem dest 0 destMax) else (EINVAL, mem)
  else if destMax < count then
    (ERANGE_AND_RESET, memset mem dest 0 destMax)
  else if SECUREC_MEMORY_IS_OVERLAP dest src count = true then
    (EOVERLAP_AND_RESET, memset mem dest 0 destMax)
  else
    (EOK, mem)

/-- `CpuMemoryManager::Copy`. -/
def CpuMemoryManager.Copy (mem : Mem) (dest dest_size src_buffer src_size : Nat) : Status × Mem :=
  let ret := memcpy_s mem dest dest_size src_buffer src_size
  if EOK ≠ ret.1 then
    (STATUS_FAULT, ret.2)
  else
    (STATUS_OK, ret.2)

/-- `CpuMemoryManager::Write`. -/
def CpuMemoryManager.Write (mem : Mem) (host_data host_size device_buffer device_size : Nat) :
    Status × Mem :=
  CpuMemoryManager.Copy mem device_buffer device_size host_data host_size

/-- `CpuMemoryManager::Read`. -/
def CpuMemoryManager.Read (mem : Mem) (device_data device_size host_buffer host_size : Nat) :
    Status × Mem :=
  CpuMemoryManager.Copy mem host_buffer host_size device_data device_size

/-- Modelled from the spec: the enumeration `DeviceMemoryCopyKind` is declared in
`device_memory.h`, which is not among the sources; its values are
`ToHost`, `ToDevice`, `DeviceToDevice` and `Default`. -/
inductive DeviceMemoryCopyKind where
  | ToHost
  | ToDevice
  | DeviceToDevice
  | Default
  deriving DecidableEq

/-- `CpuMemoryManager::DeviceMemoryCopy`. -/
def CpuMemoryManager.DeviceMemoryCopy (mem : Mem) (dest_memory : DeviceMemory) (dest_offset : Nat)
    (src_memory : DeviceMemory) (src_offset src_size : Nat) (_copy_kind : DeviceMemoryCopyKind) :
    Status × Mem :=
  let dest_ptr := dest_memory.GetPtr + dest_offset
  let src_ptr := src_memory.GetConstPtr + src_offset
  let ret := memcpy_s mem dest_ptr src_size src_ptr src_size
  if EOK ≠ ret.1 then
    (STATUS_FAULT, ret.2)
  else
    (STATUS_OK, ret.2)

/-- Modelled from the spec: `DeviceMemory::CheckReadFromParam` is defined in
`device_memory.cc`, which is not among the sources. It "validates offset/size
bounds against both this handle's capacity and the source's". -/
def DeviceMemory.CheckReadFromParam (self src_memory : DeviceMemory)
    (src_offset src_size dest_offset : Nat) : Bool :=
  decide (src_offset + src_size ≤ src_memory.capacity_)
    && decide (dest_offset + src_size ≤ self.capacity_)

/-- `CpuMemory::ReadFrom`. The copy is delegated to the memory manager of the
source handle, passed here as `mem_mgr_DeviceMemoryCopy`. -/
def CpuMemory.ReadFrom
    (mem_mgr_DeviceMemoryCopy :
      Mem → DeviceMemory → Nat → DeviceMemory → Nat → Nat → DeviceMemoryCopyKind → Status × Mem)
    (mem : Mem) (self src_memory : DeviceMemory) (src_offset src_size dest_offset : Nat) :
    Status × Mem :=
  if ¬ (self.CheckReadFromParam src_memory src_offset src_size dest_offset = true) then
    (STATUS_INVALID, mem)
  else
    mem_mgr_DeviceMemoryCopy mem self dest_offset src_memory src_offset src_size
      DeviceMemoryCopyKind.ToHost

/-! ## The video demuxer flow unit

The flow unit works on a data context (the per-stream private slots, the input
and the output port), on the global timer queue and on the media library. The
state `World` carries the first two; the media library is the oracle `Ffmpeg`.
Shared pointers are embedded by value: the retry context held in the private
slot `DEMUX_RETRY_CONTEXT` is the one the flow unit reads and updates. -/

/-- Modelled from the spec: the enumeration `RetryStatus` is declared in
`source_context.h`, which is not among the sources. The retry policy decides that
retry is not applicable, that a retry is to be made, or that no further attempt
is useful. -/
inductive RetryStatus where
  | RETRY_NONEED
  | RETRY_NEED
  | RETRY_STOP
  deriving DecidableEq

open RetryStatus

/-- Modelled from the spec: the class `SourceContext` is declared in
`source_context.h`, which is not among the sources. It holds the "last status,
attempt/backoff state, source locator, retry policy decision"; the policy is
virtual, so it is carried as two functions: the decision, taken from the last
status and the attempt state and returning the new attempt state, and the
interval before the next attempt. -/
structure SourceContext where
  last_status_ : Status
  source_url_ : Option String
  attempts_ : Nat
  NeedRetry_ : Status → Nat → RetryStatus × Nat
  GetRetryInterval_ : Nat → Nat

/-- Modelled from the spec: `SourceContext::SetLastProcessStatus` records the status. -/
def SourceContext.SetLastProcessStatus (self : SourceContext) (status : Status) : SourceContext :=
  { self with last_status_ := status }

/-- Modelled from the spec: `SourceContext::NeedRetry` asks the policy and keeps
the attempt state it answers with. -/
def SourceContext.NeedRetry (self : SourceContext) : RetryStatus × SourceContext :=
  ((self.NeedRetry_ self.last_status_ self.attempts_).1,
    { self with attempts_ := (self.NeedRetry_ self.last_status_ self.attempts_).2 })

/-- Modelled from the spec: `SourceContext::GetRetryInterval` is the
policy-determined interval. -/
def SourceContext.GetRetryInterval (self : SourceContext) : Nat :=
  self.GetRetryInterval_ self.attempts_

/-- Modelled from the spec: `SourceContext::GetSourceURL` is the source locator,
absent when there is none. -/
def SourceContext.GetSourceURL (self : SourceContext) : Option String :=
  self.source_url_

/-- A demultiplexed packet: the fields of `AVPacket` that the flow unit reads. -/
structure AVPacket where
  size : Nat
  pts : Int
  dts : Int
  deriving DecidableEq

/-- The `FfmpegVideoDemuxer` as the flow unit sees it: the stream properties behind
its getters, and `Demux`, whose successive results are `Demux_ 0`, `Demux_ 1`, ...
The time base is kept as an uninterpreted number. -/
structure FfmpegVideoDemuxer where
  codec_id : Int
  profile_id : Int
  rate_num : Int
  rate_den : Int
  frame_width : Int
  frame_height : Int
  rotate_angle : Int
  duration : Int
  time_base : Int
  Demux_ : Nat → Status × AVPacket
  demuxed_ : Nat

/-- The call `video_demuxer->Demux(pkt)`: the status, the packet and the demuxer afterwards. -/
def FfmpegVideoDemuxer.Demux (self : FfmpegVideoDemuxer) :
    Status × AVPacket × FfmpegVideoDemuxer :=
  ((self.Demux_ self.demuxed_).1, (self.Demux_ self.demuxed_).2,
    { self with demuxed_ := self.demuxed_ + 1 })

/-- The media library: opening a reader on a locator and initialising a demuxer on it. -/
structure Ffmpeg where
  reader_Open : String → Status
  demuxer_Init : String → Status × FfmpegVideoDemuxer

/-- A buffer of the output port: its size in bytes and its metadata. -/
structure Buffer where
  size : Nat
  entries : List (String × Int)
  deriving DecidableEq

/-- The call `Buffer::Set(key, value)`: keys are unique, the new value replaces an old one. -/
def Buffer.Set (self : Buffer) (key : String) (value : Int) : Buffer :=
  { self with entries := (key, value) :: self.entries.filter (fun e => e.1 ≠ key) }

/-- The stream-level metadata object that `DataPre` publishes on the output port. -/
structure DataMeta where
  CODEC_META : Int
  PROFILE_META : Int
  SOURCE_URL : String
  deriving DecidableEq

/-- The stream-level metadata of the input port: the locator and the retry
context that the upstream source may have attached. -/
structure StreamMeta where
  SOURCE_URL : Option String
  DEMUX_RETRY_CONTEXT : Option SourceContext

/-- A timer task; the callback it runs is `VideoDemuxerFlowUnit.ReconnectCallback`. -/
structure TimerTask where
  name_ : String
  deriving DecidableEq

/-- One entry of the global timer queue: the task, the delay and the period
passed to `TimerGlobal::Schedule`. -/
structure ScheduledTask where
  task : Option TimerTask
  delay : Nat
  period : Nat
  deriving DecidableEq

/-- The data context of one stream: the private slots set by the flow unit, the
input port and its metadata, the output port and its metadata, the statistics
and the number of events sent. -/
structure DataContext where
  DEMUXER_CTX : Option FfmpegVideoDemuxer
  DEMUX_RETRY_CONTEXT : Option SourceContext
  DEMUX_TIMER_TASK : Option TimerTask
  SOURCE_URL : Option String
  VIDEO_PACKET_OUTPUT : Option DataMeta
  input_meta : Option StreamMeta
  input : List (Option String)
  output_meta : Option DataMeta
  output : List Buffer
  statistics : List (String × Int)
  events_sent : Nat

/-- The state the flow unit acts on: the data context, the queue of
`TimerGlobal`, and two observers: how many times `WriteEnd` has run, and whether a
null pointer has been dereferenced. A call that dereferences a null pointer
does not return: when `null_deref` is set by a call, the status and the other
fields that the embedding gives for it describe the state reached at the
dereference, not a result of the call. -/
structure World where
  ctx : DataContext
  timers : List ScheduledTask
  write_end_runs : Nat
  null_deref : Bool

/-- The call `TimerGlobal::Schedule(task, delay, period)`. -/
def TimerGlobal.Schedule (w : World) (task : Option TimerTask) (delay period : Nat) : World :=
  { w with timers := w.timers ++ [{ task := task, delay := delay, period := period }] }

/-- The call `ctx->SendEvent(event)`. -/
def DataContext.SendEvent (ctx : DataContext) : DataContext :=
  { ctx with events_sent := ctx.events_sent + 1 }

/-- The end-of-stream record that `WriteEnd` builds from a demuxer: one buffer of
one byte with the frame rate, the duration and the time base. -/
def end_packet_of (video_demuxer : FfmpegVideoDemuxer) : Buffer :=
  ((((({ size := 1, entries := [] } : Buffer).Set "rate_num" video_demuxer.rate_num).Set
    "rate_den" video_demuxer.rate_den).Set "duration" video_demuxer.duration).Set
    "time_base" video_demuxer.time_base)

/-- `VideoDemuxerFlowUnit::WriteEnd`. The output list is built with one buffer of
one byte; the getters are then called on the demuxer of the slot `DEMUXER_CTX`.
When the slot is empty, `video_demuxer->GetFrameRate` dereferences a null pointer
and the call does not return: the embedding stops there, with the bare buffer
on the output and `null_deref` set. -/
def VideoDemuxerFlowUnit.WriteEnd (w : World) : World :=
  let w := { w with write_end_runs := w.write_end_runs + 1 }
  match w.ctx.DEMUXER_CTX with
  | none =>
    { w with ctx := { w.ctx with output := [{ size := 1, entries := [] }] }, null_deref := true }
  | some video_demuxer =>
    { w with ctx := { w.ctx with output := [end_packet_of video_demuxer] } }

/-- Modelled from the spec: the macros `DeferCond` and `DeferCondAdd` are defined in
`utils.h`, which is not among the sources: a "scoped finalizer with a deferred
condition", evaluated "at every exit path". In `Reconnect` the condition is
`ret == STATUS_SUCCESS` on the local `ret` and the action is `WriteEnd(ctx)`. -/
def VideoDemuxerFlowUnit.Reconnect.defer (ret : Status) (w : World) : World :=
  if ret = STATUS_SUCCESS then VideoDemuxerFlowUnit.WriteEnd w else w

/-- `VideoDemuxerFlowUnit::Reconnect`. -/
def VideoDemuxerFlowUnit.Reconnect (status : Status) (w : World) : Status × World :=
  let ret := STATUS_CONTINUE
  match w.ctx.DEMUX_RETRY_CONTEXT with
  | none =>
    if status = STATUS_NODATA then
      let ret := STATUS_SUCCESS
      (ret, VideoDemuxerFlowUnit.Reconnect.defer ret w)
    else
      (status, VideoDemuxerFlowUnit.Reconnect.defer ret w)
  | some source_context =>
    let source_context := source_context.SetLastProcessStatus status
    let retry_status := source_context.NeedRetry.1
    let source_context := source_context.NeedRetry.2
    let w := { w with ctx := { w.ctx with DEMUX_RETRY_CONTEXT := some source_context } }
    if retry_status = RETRY_NONEED then
      let ret := STATUS_FAULT
      (ret, VideoDemuxerFlowUnit.Reconnect.defer ret w)
    else if retry_status = RETRY_STOP then
      let ret := STATUS_SUCCESS
      (ret, VideoDemuxerFlowUnit.Reconnect.defer ret w)
    else
      let timer_task := w.ctx.DEMUX_TIMER_TASK
      let w := TimerGlobal.Schedule w timer_task source_context.GetRetryInterval 0
      (ret, VideoDemuxerFlowUnit.Reconnect.defer ret w)

/-- `VideoDemuxerFlowUnit::UpdateStatsInfo`. -/
def VideoDemuxerFlowUnit.UpdateStatsInfo (ctx : DataContext) (demuxer : FfmpegVideoDemuxer) :
    DataContext :=
  { ctx with statistics :=
      ("frame_rate_den", demuxer.rate_den) :: ("frame_rate_num", demuxer.rate_num)
        :: ctx.statistics.filter (fun e => e.1 ≠ "frame_rate_num" ∧ e.1 ≠ "frame_rate_den") }

/-- `VideoDemuxerFlowUnit::InitDemuxer`. The metadata object of the private slot
`VIDEO_PACKET_OUTPUT` is the one published on the output port, so both are
updated; writing through it dereferences a null pointer when the slot is empty. -/
def VideoDemuxerFlowUnit.InitDemuxer (ff : Ffmpeg) (w : World) (source_url : String) :
    Status × World :=
  let ret := ff.reader_Open source_url
  if ret ≠ STATUS_SUCCESS then
    (STATUS_FAULT, w)
  else
    let ret := (ff.demuxer_Init source_url).1
    let video_demuxer := (ff.demuxer_Init source_url).2
    if ret ≠ STATUS_SUCCESS then
      (STATUS_FAULT, w)
    else
      match w.ctx.VIDEO_PACKET_OUTPUT with
      | none => (STATUS_FAULT, { w with null_deref := true })
      | some _ =>
        let data_meta : DataMeta :=
          { CODEC_META := video_demuxer.codec_id, PROFILE_META := video_demuxer.profile_id,
            SOURCE_URL := source_url }
        let ctx := { w.ctx with
          VIDEO_PACKET_OUTPUT := some data_meta, output_meta := some data_meta,
          DEMUXER_CTX := some video_demuxer, SOURCE_URL := some source_url }
        (STATUS_SUCCESS, { w with ctx := VideoDemuxerFlowUnit.UpdateStatsInfo ctx video_demuxer })

/-- The callback of the timer task that `CreateRetryTask` builds. `flow_unit_alive`
and `data_context_alive` tell whether the two weak pointers can still be locked.
The status of `InitDemuxer` is bound to a `status` declared inside the `if` block;
the `status` passed to `SetLastProcessStatus` is the outer one. -/
def VideoDemuxerFlowUnit.ReconnectCallback (ff : Ffmpeg) (flow_unit_alive data_context_alive : Bool)
    (w : World) : World :=
  if flow_unit_alive = false ∨ data_context_alive = false then
    w
  else
    match w.ctx.DEMUX_RETRY_CONTEXT with
    | none => { w with null_deref := true }
    | some source_context =>
      let source_url := source_context.GetSourceURL
      let status := STATUS_FAULT
      let w := match source_url with
        | some url => (VideoDemuxerFlowUnit.InitDemuxer ff w url).2
        | none => w
      let source_context := source_context.SetLastProcessStatus status
      { w with ctx :=
          DataContext.SendEvent { w.ctx with DEMUX_RETRY_CONTEXT := some source_context } }

/-- `VideoDemuxerFlowUnit::CreateRetryTask`. -/
def VideoDemuxerFlowUnit.CreateRetryTask (w : World) : Status × World :=
  match w.ctx.input_meta with
  | none => (STATUS_FAULT, w)
  | some stream_meta =>
    match stream_meta.DEMUX_RETRY_CONTEXT with
    | none => (STATUS_FAULT, w)
    | some source_context =>
      let source_context := source_context.SetLastProcessStatus STATUS_FAULT
      let timer_task : TimerTask := { name_ := "DemuxerReconnect" }
      (STATUS_OK, { w with ctx := { w.ctx with
        DEMUX_RETRY_CONTEXT := some source_context, DEMUX_TIMER_TASK := some timer_task } })

/-! ## Sample objects for the instances -/

/-- A demuxer on a 25 frames per second stream that has reached the end of its data. -/
def sample_demuxer : FfmpegVideoDemuxer :=
  { codec_id := 27, profile_id := 100, rate_num := 25, rate_den := 1, frame_width := 1920,
    frame_height := 1080, rotate_angle := 0, duration := 60, time_base := 90000,
    Demux_ := fun _ => (STATUS_NODATA, { size := 0, pts := 0, dts := 0 }), demuxed_ := 0 }

/-- A retry context whose policy always answers `decision`, counts the attempts
and waits one second more after each of them. -/
def sample_source_context (decision : RetryStatus) : SourceContext :=
  { last_status_ := STATUS_SUCCESS, source_url_ := some "rtsp://camera/stream", attempts_ := 0,
    NeedRetry_ := fun _ n => (decision, n + 1), GetRetryInterval_ := fun n => 1000 * n }

/-- A world after a successful `DataPre`: the given retry context and demuxer, the
reconnect timer task when there is a retry context, and nothing scheduled or
written yet. -/
def sample_world (retry : Option SourceContext) (demuxer : Option FfmpegVideoDemuxer) : World :=
  { ctx :=
      { DEMUXER_CTX := demuxer, DEMUX_RETRY_CONTEXT := retry,
        DEMUX_TIMER_TASK := retry.map (fun _ => { name_ := "DemuxerReconnect" }),
        SOURCE_URL := demuxer.map (fun _ => "rtsp://camera/stream"),
        VIDEO_PACKET_OUTPUT := some { CODEC_META := 0, PROFILE_META := 0, SOURCE_URL := "" },
        input_meta := some { SOURCE_URL := some "rtsp://camera/stream",
                             DEMUX_RETRY_CONTEXT := retry },
        input := [],
        output_meta := some { CODEC_META := 0, PROFILE_META := 0, SOURCE_URL := "" },
        output := [], statistics := [], events_sent := 0 },
    timers := [], write_end_runs := 0, null_deref := false }

/-- A media library on which every locator opens and yields `sample_demuxer`. -/
def sample_ffmpeg : Ffmpeg :=
  { reader_Open := fun _ => STATUS_SUCCESS,
    demuxer_Init := fun _ => (STATUS_SUCCESS, sample_demuxer) }

/-! ## The video demuxer flow unit: `Process` and `DataPre` -/

/-- The conversion `Status::operator bool` of `status.h`, which is not among the
sources: a status tests true exactly when it is the success code. The embedded
code relies on it: `Process` goes on to send its event only when the
`STATUS_SUCCESS` returned by `WriteData` passes the test `if (!ret)`. -/
def Status.toBool (s : Status) : Bool :=
  decide (s = STATUS_SUCCESS)

/-- The data record that `WriteData` builds from a packet and the demuxer: one
buffer of the packet's size (of one byte for an empty packet, which tells the
decoder the end of the stream) with the time stamps and the stream properties. -/
def data_packet_of (pkt : AVPacket) (video_demuxer : FfmpegVideoDemuxer) : Buffer :=
  let packet_buffer : Buffer := { size := if pkt.size = 0 then 1 else pkt.size, entries := [] }
  let packet_buffer := packet_buffer.Set "pts" pkt.pts
  let packet_buffer := packet_buffer.Set "dts" pkt.dts
  let packet_buffer := packet_buffer.Set "time_base" video_demuxer.time_base
  let packet_buffer := packet_buffer.Set "rate_num" video_demuxer.rate_num
  let packet_buffer := packet_buffer.Set "rate_den" video_demuxer.rate_den
  let packet_buffer := packet_buffer.Set "width" video_demuxer.frame_width
  let packet_buffer := packet_buffer.Set "height" video_demuxer.frame_height
  let packet_buffer := packet_buffer.Set "rotate_angle" video_demuxer.rotate_angle
  packet_buffer.Set "duration" video_demuxer.duration

/-- `VideoDemuxerFlowUnit::WriteData`. The output list is built with one buffer,
which then receives its metadata. -/
def VideoDemuxerFlowUnit.WriteData (w : World) (pkt : AVPacket)
    (video_demuxer : FfmpegVideoDemuxer) : Status × World :=
  (STATUS_SUCCESS, { w with ctx := { w.ctx with output := [data_packet_of pkt video_demuxer] } })

/-- `VideoDemuxerFlowUnit::Process`. With no demuxer in the slot `DEMUXER_CTX` the
status `demux_status` keeps its initial value `STATUS_FAULT`; otherwise it is the
status of `Demux`, which advances the demuxer. -/
def VideoDemuxerFlowUnit.Process (w : World) : Status × World :=
  match w.ctx.DEMUXER_CTX with
  | none => VideoDemuxerFlowUnit.Reconnect STATUS_FAULT w
  | some video_demuxer =>
    let demux_status := video_demuxer.Demux.1
    let pkt := video_demuxer.Demux.2.1
    let w := { w with ctx := { w.ctx with DEMUXER_CTX := some video_demuxer.Demux.2.2 } }
    if demux_status = STATUS_OK then
      let ret := VideoDemuxerFlowUnit.WriteData w pkt video_demuxer.Demux.2.2
      if ret.1.toBool = false then
        ret
      else
        (STATUS_CONTINUE, { ret.2 with ctx := ret.2.ctx.SendEvent })
    else
      VideoDemuxerFlowUnit.Reconnect demux_status w

/-- `VideoDemuxerFlowUnit::GetSourceUrl`. An input buffer is given by the string it
holds, or is absent for a null pointer. -/
def VideoDemuxerFlowUnit.GetSourceUrl (data_ctx : DataContext) : Option String :=
  match data_ctx.input_meta.bind (fun stream_meta => stream_meta.SOURCE_URL) with
  | some meta_value => some meta_value
  | none =>
    match data_ctx.input with
    | [] => none
    | input_buffer :: _ => input_buffer

/-- The first step of `DataPre` once the locator is known: a fresh stream-level
metadata object, with codec 0, profile 0 and an empty locator, is published on
the output port and kept in the private slot `VIDEO_PACKET_OUTPUT`. -/
def VideoDemuxerFlowUnit.DataPre.SetMeta (w : World) : World :=
  { w with ctx := { w.ctx with
      output_meta := some { CODEC_META := 0, PROFILE_META := 0, SOURCE_URL := "" },
      VIDEO_PACKET_OUTPUT := some { CODEC_META := 0, PROFILE_META := 0, SOURCE_URL := "" } } }

/-- `VideoDemuxerFlowUnit::DataPre`. -/
def VideoDemuxerFlowUnit.DataPre (ff : Ffmpeg) (w : World) : Status × World :=
  match VideoDemuxerFlowUnit.GetSourceUrl w.ctx with
  | none => (STATUS_FAULT, w)
  | some source_url_ptr =>
    let w := VideoDemuxerFlowUnit.DataPre.SetMeta w
    let demuxer_status := (VideoDemuxerFlowUnit.InitDemuxer ff w source_url_ptr).1
    let w := (VideoDemuxerFlowUnit.InitDemuxer ff w source_url_ptr).2
    let ret := (VideoDemuxerFlowUnit.CreateRetryTask w).1
    let w := (VideoDemuxerFlowUnit.CreateRetryTask w).2
    if ret.toBool = false ∧ demuxer_status.toBool = false then
      (STATUS_FAULT, w)
    else
      (STATUS_SUCCESS, w)

/-- A retry context whose policy asks for a retry while fewer than `bound`
attempts have been made and answers `RETRY_STOP` afterwards. -/
def bounded_source_context (bound : Nat) : SourceContext :=
  { last_status_ := STATUS_SUCCESS, source_url_ := some "rtsp://camera/stream", attempts_ := 0,
    NeedRetry_ := fun _ n => if n < bound then (RETRY_NEED, n + 1) else (RETRY_STOP, n),
    GetRetryInterval_ := fun n => 1000 * n }

/-- A world before `DataPre`: empty private slots, the locator and the given retry
context on the stream-level metadata of the input port. -/
def fresh_world (retry : Option SourceContext) : World :=
  { ctx :=
      { DEMUXER_CTX := none, DEMUX_RETRY_CONTEXT := none, DEMUX_TIMER_TASK := none,
        SOURCE_URL := none, VIDEO_PACKET_OUTPUT := none,
        input_meta := some { SOURCE_URL := some "rtsp://camera/stream",
                             DEMUX_RETRY_CONTEXT := retry },
        input := [], output_meta := none, output := [], statistics := [], events_sent := 0 },
    timers := [], write_end_runs := 0, null_deref := false }

/-- A media library on which no locator opens. -/
def unreachable_ffmpeg : Ffmpeg :=
  { reader_Open := fun _ => STATUS_FAULT,
    demuxer_Init := fun _ => (STATUS_FAULT, sample_demuxer) }

/-- A demuxer whose next packet is 188 bytes long. -/
def streaming_demuxer : FfmpegVideoDemuxer :=
  { sample_demuxer with Demux_ := fun n => (STATUS_OK, { size := 188, pts := n, dts := n }) }

/-- The world after `DataPre` on a locator that does not open, with a retry
policy bounded to one attempt: `DataPre` succeeds on the strength of the retry
context, and no demuxer is stored. -/
def world_after_failed_connect : World :=
  (VideoDemuxerFlowUnit.DataPre unreachable_ffmpeg
    (fresh_world (some (bounded_source_context 1)))).2

/-- The world after the first `Process` on `world_after_failed_connect`, which
schedules the reconnect task, and after the timer callback, whose
re-initialisation fails as well. -/
def world_after_failed_retry : World :=
  VideoDemuxerFlowUnit.ReconnectCallback unreachable_ffmpeg true true
    (VideoDemuxerFlowUnit.Process world_after_failed_connect).2

/-! ## Buffer metadata (`buffer.h`) -/

/-- Modelled from the spec: the class `Any` is declared in `any.h`, which is not
among the sources. A metadata value "holds a runtime type tag plus an
opaquely-owned value"; the constructors are the types of the values that the
embedded code stores and reads. -/
inductive Any where
  | int32 (v : Int)
  | string (s : String)
  | data_type (name : String)
  | shape (dims : List Nat)
  deriving DecidableEq

/-- The cast of a metadata value to `int32_t`: it succeeds on that tag only. -/
def Any.cast_int32 : Any → Option Int
  | Any.int32 v => some v
  | _ => none

/-- The cast of a metadata value to `std::string`: it succeeds on that tag only. -/
def Any.cast_string : Any → Option String
  | Any.string s => some s
  | _ => none

/-- Modelled from the spec: the class `Collection` is declared in `any.h`, which is
not among the sources: "a tagged-value store keyed by string", with unique keys. -/
structure Collection where
  entrys_ : List (String × Any)
  deriving DecidableEq

/-- Modelled from the spec: `Collection::Set` stores the value under the key,
replacing an earlier value. -/
def Collection.Set (self : Collection) (key : String) (value : Any) : Collection :=
  { entrys_ := (key, value) :: self.entrys_.filter (fun e => e.1 ≠ key) }

/-- The typed lookup of `key`: the stored value when the key is present and its
tag is the requested type, as decided by `cast`; a miss otherwise. -/
def Collection.find (self : Collection) (cast : Any → Option T) (key : String) : Option T :=
  (self.entrys_.lookup key).bind cast

/-- Modelled from the spec: `Collection::Get<T>(key, value)` "checks the tag before
reinterpreting, returning a presence flag rather than throwing on mismatch".
The requested type `T` is given by its cast. The result is the flag and `value`
afterwards: the stored value on a hit, unchanged on a miss. -/
def Collection.Get (cast : Any → Option T) (self : Collection) (key : String) (value : T) :
    Bool × T :=
  match self.find cast key with
  | some stored => (true, stored)
  | none => (false, value)

/-- The metadata of a buffer: the member `custom_meta_` of `BufferMeta`. -/
structure BufferMeta where
  custom_meta_ : Collection
  deriving DecidableEq

/-- `BufferMeta::Set`. -/
def BufferMeta.Set (self : BufferMeta) (key : String) (value : Any) : BufferMeta :=
  { custom_meta_ := self.custom_meta_.Set key value }

/-- `BufferMeta::Get(key, value)`. -/
def BufferMeta.Get (cast : Any → Option T) (self : BufferMeta) (key : String) (value : T) :
    Bool × T :=
  self.custom_meta_.Get cast key value

namespace buffer_h

/-- The class `Buffer` of `buffer.h`: its metadata `meta_` and the bytes of its
device memory. (The record `modelbox.Buffer` above is the untyped output record
of the demuxer.) -/
structure Buffer where
  meta_ : BufferMeta
  bytes_ : List Nat
  deriving DecidableEq

/-- `Buffer::Set`. -/
def Buffer.Set (self : Buffer) (key : String) (value : Any) : Buffer :=
  { self with meta_ := self.meta_.Set key value }

/-- `Buffer::Get(key, value)`: the flag returned and `value` afterwards. -/
def Buffer.Get (cast : Any → Option T) (self : Buffer) (key : String) (value : T) : Bool × T :=
  self.meta_.Get cast key value

/-- `Buffer::Get(key, value, default_value)`: `value` afterwards. The default has a
type `U` of its own, and the assignment `value = default_value` converts it to the
type `T` of the value; `convert` is that conversion. -/
def Buffer.Get_default_value (cast : Any → Option T) (convert : U → T) (self : Buffer)
    (key : String) (value : T) (default_value : U) : T :=
  let ret := self.meta_.Get cast key value
  if ret.1 = false then
    convert default_value
  else
    ret.2

/-- `Buffer::GetBytes`. -/
def Buffer.GetBytes (self : Buffer) : Nat :=
  self.bytes_.length

end buffer_h

/-! ## The resize flow unit -/

/-- The interpolation flags of the vision library that `kCVResizeMethod` names. -/
inductive InterpolationFlags where
  | INTER_NEAREST
  | INTER_LINEAR
  | INTER_CUBIC
  | INTER_AREA
  | INTER_LANCZOS4
  | INTER_MAX
  | WARP_FILL_OUTLIERS
  | WARP_INVERSE_MAP
  deriving DecidableEq

open InterpolationFlags

/-- The table `kCVResizeMethod`. -/
def kCVResizeMethod : List (String × InterpolationFlags) :=
  [("inter_nearest", INTER_NEAREST),
   ("inter_linear", INTER_LINEAR),
   ("inter_cubic", INTER_CUBIC),
   ("inter_area", INTER_AREA),
   ("inter_lanczos4", INTER_LANCZOS4),
   ("inter_max", INTER_MAX),
   ("warp_fill_outliers", WARP_FILL_OUTLIERS),
   ("warp_inverse_map", WARP_INVERSE_MAP)]

/-- Modelled from the spec: the class `Configuration` is declared in
`configuration.h`, which is not among the sources. "The runtime supplies a
resolved configuration object at `Open` time"; `GetUint32(key, default)` and
`GetString(key, default)` answer the value of the option, or the default when
the option is not set. -/
structure Configuration where
  uint32_options : String → Option Nat
  string_options : String → Option String

/-- Modelled from the spec: `Configuration::GetUint32(key, default)`. -/
def Configuration.GetUint32 (opts : Configuration) (key : String) (default_value : Nat) : Nat :=
  (opts.uint32_options key).getD default_value

/-- Modelled from the spec: `Configuration::GetString(key, default)`. -/
def Configuration.GetString (opts : Configuration) (key : String) (default_value : String) :
    String :=
  (opts.string_options key).getD default_value

/-- The members of `CVResizeFlowUnit` that `Open` sets and `Process` reads. -/
structure CVResizeFlowUnit where
  dest_width_ : Nat
  dest_height_ : Nat
  interpolation_ : InterpolationFlags
  deriving DecidableEq

/-- `CVResizeFlowUnit::Open`: the status and the flow unit afterwards. The members
`dest_width_` and `dest_height_` are unsigned, so `<= 0` holds for 0 only. -/
def CVResizeFlowUnit.Open (self : CVResizeFlowUnit) (opts : Configuration) :
    Status × CVResizeFlowUnit :=
  let dest_width_ := opts.GetUint32 "width" 0
  let dest_width_ := if dest_width_ = 0 then opts.GetUint32 "image_width" 0 else dest_width_
  let dest_height_ := opts.GetUint32 "height" 0
  let dest_height_ := if dest_height_ = 0 then opts.GetUint32 "image_height" 0 else dest_height_
  let self := { self with dest_width_ := dest_width_, dest_height_ := dest_height_ }
  if dest_width_ ≤ 0 ∨ dest_height_ ≤ 0 then
    (STATUS_BADCONF, self)
  else
    let interpolation_str := opts.GetString "interpolation" "inter_linear"
    match kCVResizeMethod.lookup interpolation_str with
    | none => (STATUS_BADCONF, self)
    | some item => (STATUS_OK, { self with interpolation_ := item })

/-- The conversion of an `int64_t` to `int32_t`: the value modulo `2 ^ 32`, taken in
the range from `-2 ^ 31` to `2 ^ 31 - 1`. -/
def int64_to_int32 (v : Int) : Int :=
  (v + 2 ^ 31) % 2 ^ 32 - 2 ^ 31

/-- The constant `RGB_CHANNELS` of `resize_flowunit.h`, which is not among the
sources: the three channels of the `CV_8UC3` images that `Process` works on. -/
def RGB_CHANNELS : Nat := 3

/-- The cast `(int32_t)` of an unsigned 32-bit value. -/
def to_int32 (n : Nat) : Int :=
  if n % 2 ^ 32 < 2 ^ 31 then (n % 2 ^ 32 : Nat) else (n % 2 ^ 32 : Nat) - 2 ^ 32

/-- The call `memcpy_s(dest, destMax, src, count)` of the library `securec` on two
separate, non-null arrays, `dest` of `destMax` bytes and `src` of `count` bytes:
the array `dest` afterwards. -/
def memcpy_s_bytes (dest src : List Nat) : List Nat :=
  if src.length ≤ dest.length ∧ dest.length ≤ SECUREC_MEM_MAX_LEN ∧ 0 < src.length then
    src ++ dest.drop src.length
  else if dest.length = 0 ∨ SECUREC_MEM_MAX_LEN < dest.length then
    dest
  else if dest.length < src.length then
    List.replicate dest.length 0
  else
    dest

/-- The vision library: `cv::resize` from the bytes of a `width` by `height` image
of three channels to the bytes of the destination image. It is taken to return. -/
structure OpenCV where
  resize : List Nat → Int → Int → Nat → Nat → InterpolationFlags → List Nat

/-- The output buffer that `output_bufs->Build(tensor_shape)` creates for each
input: `dest_width_ * dest_height_ * channel` bytes (a `size_t` product), here
zero-filled, and no metadata. -/
def CVResizeFlowUnit.built_buffer (self : CVResizeFlowUnit) : buffer_h.Buffer :=
  { meta_ := { custom_meta_ := { entrys_ := [] } },
    bytes_ := List.replicate
      ((self.dest_width_ * self.dest_height_ * RGB_CHANNELS) % SIZE_T_RANGE) 0 }

/-- The body of the loop of `Process` after the four checks: the image is copied
into a matrix of `width * height` elements of three bytes, resized, copied into
the output buffer, and the output metadata is set. -/
def CVResizeFlowUnit.resize_one (self : CVResizeFlowUnit) (cv : OpenCV)
    (input_buf : buffer_h.Buffer) (width height : Int) (pix_fmt : String)
    (output_buf : buffer_h.Buffer) : buffer_h.Buffer :=
  let channel : Int := RGB_CHANNELS
  let img_data := memcpy_s_bytes (List.replicate ((width * height).toNat * 3) 0) input_buf.bytes_
  let img_dest := cv.resize img_data width height self.dest_width_ self.dest_height_
    self.interpolation_
  let output_buf := { output_buf with bytes_ := memcpy_s_bytes output_buf.bytes_ img_dest }
  let output_buf := output_buf.Set "width" (Any.int32 (to_int32 self.dest_width_))
  let output_buf := output_buf.Set "height" (Any.int32 (to_int32 self.dest_height_))
  let output_buf := output_buf.Set "width_stride" (Any.int32 (to_int32 self.dest_width_))
  let output_buf := output_buf.Set "height_stride" (Any.int32 (to_int32 self.dest_height_))
  let output_buf := output_buf.Set "channel" (Any.int32 channel)
  let output_buf := output_buf.Set "pix_fmt" (Any.string pix_fmt)
  let output_buf := output_buf.Set "type" (Any.data_type "MODELBOX_UINT8")
  let output_buf := output_buf.Set "shape" (Any.shape [self.dest_height_, self.dest_width_, 3])
  output_buf.Set "layout" (Any.string "hwc")

/-- The loop of `CVResizeFlowUnit::Process` from index `i` on: the inputs still to
be visited, the index, and the output list so far. The locals `width`, `height`
and `channel` are uninitialised before the lookups, taken as 0 here; `pix_fmt` is
the empty string. -/
def CVResizeFlowUnit.Process.loop (self : CVResizeFlowUnit) (cv : OpenCV) :
    List buffer_h.Buffer → Nat → List buffer_h.Buffer → Status × List buffer_h.Buffer
  | [], _, output_bufs => (STATUS_OK, output_bufs)
  | input_buf :: rest, i, output_bufs =>
    let height := input_buf.Get Any.cast_int32 "height" 0
    if height.1 = false then
      (STATUS_NOTSUPPORT, output_bufs)
    else
      let width := input_buf.Get Any.cast_int32 "width" 0
      if width.1 = false then
        (STATUS_NOTSUPPORT, output_bufs)
      else
        let pix_fmt := input_buf.Get Any.cast_string "pix_fmt" ""
        if pix_fmt.1 = false ∧ (input_buf.Get Any.cast_int32 "channel" 0).1 = false then
          (STATUS_NOTSUPPORT, output_bufs)
        else if pix_fmt.1 = true ∧ pix_fmt.2 ≠ "rgb" ∧ pix_fmt.2 ≠ "bgr" then
          (STATUS_NOTSUPPORT, output_bufs)
        else
          CVResizeFlowUnit.Process.loop self cv rest (i + 1)
            (output_bufs.set i
              (self.resize_one cv input_buf width.2 height.2 pix_fmt.2
                (output_bufs.getD i self.built_buffer)))

/-- `CVResizeFlowUnit::Process`: the status and the output list `out_image`, which
is empty before the call. -/
def CVResizeFlowUnit.Process (self : CVResizeFlowUnit) (cv : OpenCV)
    (input_bufs : List buffer_h.Buffer) : Status × List buffer_h.Buffer :=
  if input_bufs.length ≤ 0 then
    (STATUS_FAULT, [])
  else
    let output_bufs := List.replicate input_bufs.length self.built_buffer
    CVResizeFlowUnit.Process.loop self cv input_bufs 0 output_bufs

/-- The resolved width, in the words of the specification: the option "width" if
non-zero and otherwise the option "image_width", each defaulting to 0. -/
def resolved_width (opts : Configuration) : Nat :=
  if (opts.uint32_options "width").getD 0 ≠ 0 then (opts.uint32_options "width").getD 0
  else (opts.uint32_options "image_width").getD 0

/-- The resolved height, in the words of the specification: the option "height" if
non-zero and otherwise the option "image_height", each defaulting to 0. -/
def resolved_height (opts : Configuration) : Nat :=
  if (opts.uint32_options "height").getD 0 ≠ 0 then (opts.uint32_options "height").getD 0
  else (opts.uint32_options "image_height").getD 0

/-- An image buffer of `width * height * 3` bytes with the given metadata. -/
def sample_image (width height : Nat) (entries : List (String × Any)) : buffer_h.Buffer :=
  { meta_ := { custom_meta_ := { entrys_ := entries } },
    bytes_ := List.replicate (width * height * 3) 128 }

/-- A resize flow unit configured for 4 by 2 images. -/
def sample_resize : CVResizeFlowUnit :=
  { dest_width_ := 4, dest_height_ := 2, interpolation_ := INTER_LINEAR }

/-- A configuration that sets "image_width" to 640 and "image_height" to 480 and
leaves every other option unset. -/
def sample_options : Configuration :=
  { uint32_options := fun key =>
      if key = "image_width" then some 640 else if key = "image_height" then some 480 else none,
    string_options := fun _ => none }

/-- A configuration that sets no option. -/
def empty_options : Configuration :=
  { uint32_options := fun _ => none, string_options := fun _ => none }

/-! ## Lemmas on the flat memory -/

/-- A 64-bit value stored at `a` is read back from `a`. -/
theorem load_u64_store_u64 (mem : Mem) (a v : Nat) (hv : v < 2 ^ 64) :
    load_u64 (store_u64 mem a v) a = v := by
  simp only [load_u64, store_u64, byte_of]
  have e : ∀ k, k < 8 → (a ≤ a + k ∧ a + k < a + 8) := fun k hk => ⟨by omega, by omega⟩
  have e0 : (a ≤ a ∧ a < a + 8) := ⟨le_refl _, by omega⟩
  simp only [e0, e 1 (by decide), e 2 (by decide), e 3 (by decide), e 4 (by decide),
    e 5 (by decide), e 6 (by decide), e 7 (by decide), if_true, Nat.sub_self,
    Nat.add_sub_cancel_left]
  norm_num
  omega

/-- A store of 64 bits at `a` leaves every byte outside `[a, a + 8)` alone. -/
theorem store_u64_outside (mem : Mem) (a v x : Nat) (hx : x < a ∨ a + 8 ≤ x) :
    store_u64 mem a v x = mem x := by
  unfold store_u64
  rw [if_neg]
  omega

/-- A byte written below `a` does not change the 64 bits read at `a`. -/
theorem load_u64_store_u8_below (mem : Mem) (a x : Nat) (b : Byte) (hx : x < a) :
    load_u64 (store_u8 mem x b) a = load_u64 mem a := by
  have e : ∀ k, store_u8 mem x b (a + k) = mem (a + k) := by
    intro k
    unfold store_u8
    rw [if_neg]
    omega
  have e0 := e 0
  simp only [Nat.add_zero] at e0
  simp only [load_u64, e, e0]

/-- Changing the first byte of a 64-bit value changes the value read. -/
theorem load_u64_store_u8_first (mem : Mem) (a : Nat) (b : Byte) (hb : b ≠ mem a) :
    load_u64 (store_u8 mem a b) a ≠ load_u64 mem a := by
  have e : ∀ k, 0 < k → store_u8 mem a b (a + k) = mem (a + k) := by
    intro k hk
    unfold store_u8
    rw [if_neg]
    omega
  have e0 : store_u8 mem a b a = b := by simp [store_u8]
  simp only [load_u64, e0, e 1 (by decide), e 2 (by decide), e 3 (by decide),
    e 4 (by decide), e 5 (by decide), e 6 (by decide), e 7 (by decide)]
  have hne : b.val ≠ (mem a).val := fun h => hb (Fin.ext h)
  omega

/-- The status returned by `memcpy_s` is `EOK` with the bytes copied as soon as
the sizes are in range, both pointers are non-null and the ranges are apart. -/
theorem memcpy_s_accepts (mem : Mem) (dest destMax src count : Nat)
    (hcount : 0 < count) (hle : count ≤ destMax) (hmax : destMax ≤ SECUREC_MEM_MAX_LEN)
    (hdest : dest ≠ 0) (hsrc : src ≠ 0)
    (hapart : SECUREC_MEMORY_NO_OVERLAP dest src count = true) :
    memcpy_s mem dest destMax src count = (EOK, memcpy mem dest src count) := by
  unfold memcpy_s
  rw [if_pos ⟨hle, hdest, hsrc, hmax, hcount, hapart⟩]

/-- When the count exceeds the destination size `memcpy_s` reports an error and
every byte is either left alone or cleared. -/
theorem memcpy_s_rejects (mem : Mem) (dest destMax src count : Nat) (hlt : destMax < count) :
    (memcpy_s mem dest destMax src count).1 ≠ EOK ∧
      ∀ x, (memcpy_s mem dest destMax src count).2 x = mem x
        ∨ (memcpy_s mem dest destMax src count).2 x = 0 := by
  unfold memcpy_s
  rw [if_neg (by omega)]
  by_cases h1 : destMax = 0 ∨ SECUREC_MEM_MAX_LEN < destMax
  · rw [if_pos h1]
    exact ⟨by simp [EOK, ERANGE, EINVAL, EINVAL_AND_RESET, ERANGE_AND_RESET], fun x => Or.inl rfl⟩
  · rw [if_neg h1]
    by_cases h2 : dest = 0 ∨ src = 0
    · rw [if_pos h2]
      by_cases h3 : dest ≠ 0
      · rw [if_pos h3]
        refine ⟨by simp [EOK, ERANGE, EINVAL, EINVAL_AND_RESET, ERANGE_AND_RESET], fun x => ?_⟩
        simp only [memset]
        split
        · exact Or.inr rfl
        · exact Or.inl rfl
      · rw [if_neg h3]
        exact ⟨by simp [EOK, ERANGE, EINVAL, EINVAL_AND_RESET, ERANGE_AND_RESET], fun x => Or.inl rfl⟩
    · rw [if_neg h2, if_pos hlt]
      refine ⟨by simp [EOK, ERANGE, EINVAL, EINVAL_AND_RESET, ERANGE_AND_RESET], fun x => ?_⟩
      simp only [memset]
      split
      · exact Or.inr rfl
      · exact Or.inl rfl

/-! ## Properties of the CPU device memory -/

/-- C1: for every size `s > 0` (a `size_t`) for which `AllocSharedPtr(s)` returns a
region, the handle made over that region with capacity `s` and offset 0 passes
`Verify`: it returns `STATUS_OK` right after the allocation. -/
theorem C1_alloc_then_verify_ok (MEM_MAGIC_CODE : Nat) (hmagic : MEM_MAGIC_CODE < 2 ^ 64)
    (pool : Nat → Nat) (mem : Mem) (s : Nat) (hpos : 0 < s) (hsize : s < 2 ^ 64)
    (halloc : (CpuMemoryManager.AllocSharedPtr MEM_MAGIC_CODE pool mem s).1 ≠ 0) :
    CpuMemory.Verify MEM_MAGIC_CODE
        (CpuMemoryManager.AllocSharedPtr MEM_MAGIC_CODE pool mem s).2
        (CpuMemoryManager.MakeDeviceMemory
          (CpuMemoryManager.AllocSharedPtr MEM_MAGIC_CODE pool mem s).1 s)
      = STATUS_OK := by
  unfold CpuMemoryManager.AllocSharedPtr at halloc ⊢
  by_cases hp : pool ((s + 8) % SIZE_T_RANGE) = 0
  · simp [hp] at halloc
  · simp only [hp, if_false]
    have hmod : (0 + s) % SIZE_T_RANGE = s := by
      rw [Nat.zero_add]
      exact Nat.mod_eq_of_lt hsize
    simp only [CpuMemory.Verify, CpuMemoryManager.MakeDeviceMemory, hmod]
    rw [if_neg (by omega), load_u64_store_u64 _ _ _ hmagic]
    simp

/-- An instance of C1: three bytes from a pool that hands out address 4096. -/
theorem C1_alloc_then_verify_ok_witness :
    (CpuMemoryManager.AllocSharedPtr 81985529216486895 (fun _ => 4096) (fun _ => 0) 3).1 ≠ 0 ∧
    CpuMemory.Verify 81985529216486895
        (CpuMemoryManager.AllocSharedPtr 81985529216486895 (fun _ => 4096) (fun _ => 0) 3).2
        (CpuMemoryManager.MakeDeviceMemory
          (CpuMemoryManager.AllocSharedPtr 81985529216486895 (fun _ => 4096) (fun _ => 0) 3).1 3)
      = STATUS_OK :=
  ⟨by decide,
    C1_alloc_then_verify_ok 81985529216486895 (by norm_num) (fun _ => 4096) (fun _ => 0) 3
      (by decide) (by norm_num) (by decide)⟩

/-- C2, as stated, fails on a handle with capacity 0 and offset 0: `Verify` returns
`STATUS_OK` without reading the guard, so it still returns `STATUS_OK` after the
byte at position `capacity + offset = 0` has been changed from 0 to 1. -/
theorem C2_counterexample_empty_handle :
    CpuMemory.Verify 81985529216486895 (fun _ => 0)
        { device_mem_ptr_ := 4096, offset_ := 0, capacity_ := 0, is_content_mutable_ := true }
      = STATUS_OK ∧
    (1 : Byte) ≠ (fun _ => 0 : Mem) (4096 + (0 + 0)) ∧
    CpuMemory.Verify 81985529216486895 (store_u8 (fun _ => 0) (4096 + (0 + 0)) 1)
        { device_mem_ptr_ := 4096, offset_ := 0, capacity_ := 0, is_content_mutable_ := true }
      ≠ STATUS_FAULT := by
  decide

/-- C2, amended: for every handle whose `capacity + offset` (the `size_t` sum that
`Verify` computes) is not zero and whose `Verify` returns `STATUS_OK`, changing
the byte at position `capacity + offset` of the region to a different value
makes `Verify` return `STATUS_FAULT`, and changing any byte at a position
strictly below `capacity + offset` leaves the result of `Verify` unchanged. -/
theorem C2_verify_guard_byte (MEM_MAGIC_CODE : Nat) (mem : Mem) (h : DeviceMemory)
    (hne : (h.offset_ + h.capacity_) % SIZE_T_RANGE ≠ 0)
    (hok : CpuMemory.Verify MEM_MAGIC_CODE mem h = STATUS_OK) :
    (∀ b : Byte, b ≠ mem (h.device_mem_ptr_ + (h.offset_ + h.capacity_) % SIZE_T_RANGE) →
      CpuMemory.Verify MEM_MAGIC_CODE
          (store_u8 mem (h.device_mem_ptr_ + (h.offset_ + h.capacity_) % SIZE_T_RANGE) b) h
        = STATUS_FAULT) ∧
    (∀ (i : Nat) (b : Byte), i < (h.offset_ + h.capacity_) % SIZE_T_RANGE →
      CpuMemory.Verify MEM_MAGIC_CODE (store_u8 mem (h.device_mem_ptr_ + i) b) h
        = CpuMemory.Verify MEM_MAGIC_CODE mem h) := by
  constructor
  · intro b hb
    have hload := load_u64_store_u8_first mem _ b hb
    simp only [CpuMemory.Verify, if_neg hne] at hok ⊢
    by_cases hm : MEM_MAGIC_CODE
        = load_u64 mem (h.device_mem_ptr_ + (h.offset_ + h.capacity_) % SIZE_T_RANGE)
    · rw [if_pos]
      rw [hm]
      exact fun e => hload e.symm
    · simp [hm] at hok
  · intro i b hi
    simp only [CpuMemory.Verify, if_neg hne]
    rw [load_u64_store_u8_below mem _ _ b (by omega)]

/-- An instance of C2: a handle of capacity 4 at address 4096 with its guard in place. -/
theorem C2_verify_guard_byte_witness :
    ((0 + 4) % SIZE_T_RANGE ≠ 0 ∧
      CpuMemory.Verify 81985529216486895 (store_u64 (fun _ => 0) 4100 81985529216486895)
        { device_mem_ptr_ := 4096, offset_ := 0, capacity_ := 4, is_content_mutable_ := true }
        = STATUS_OK) ∧
    ((∀ b : Byte,
        b ≠ store_u64 (fun _ => 0) 4100 81985529216486895 (4096 + (0 + 4) % SIZE_T_RANGE) →
        CpuMemory.Verify 81985529216486895
            (store_u8 (store_u64 (fun _ => 0) 4100 81985529216486895)
              (4096 + (0 + 4) % SIZE_T_RANGE) b)
            { device_mem_ptr_ := 4096, offset_ := 0, capacity_ := 4, is_content_mutable_ := true }
          = STATUS_FAULT) ∧
      (∀ (i : Nat) (b : Byte), i < (0 + 4) % SIZE_T_RANGE →
        CpuMemory.Verify 81985529216486895
            (store_u8 (store_u64 (fun _ => 0) 4100 81985529216486895) (4096 + i) b)
            { device_mem_ptr_ := 4096, offset_ := 0, capacity_ := 4, is_content_mutable_ := true }
          = CpuMemory.Verify 81985529216486895
              (store_u64 (fun _ => 0) 4100 81985529216486895)
              { device_mem_ptr_ := 4096, offset_ := 0, capacity_ := 4,
                is_content_mutable_ := true })) :=
  ⟨⟨by decide, by decide⟩,
    C2_verify_guard_byte 81985529216486895 (store_u64 (fun _ => 0) 4100 81985529216486895)
      { device_mem_ptr_ := 4096, offset_ := 0, capacity_ := 4, is_content_mutable_ := true }
      (by decide) (by decide)⟩

/-- C3: when `srcOffset + srcSize` exceeds the capacity of the source, `ReadFrom`
returns `STATUS_INVALID`, the copy of the source's memory manager is not
invoked, and every byte of memory, the destination's included, is as before. -/
theorem C3_read_from_out_of_bounds
    (mem_mgr_DeviceMemoryCopy :
      Mem → DeviceMemory → Nat → DeviceMemory → Nat → Nat → DeviceMemoryCopyKind → Status × Mem)
    (mem : Mem) (self src_memory : DeviceMemory) (src_offset src_size dest_offset : Nat)
    (hexceeds : src_memory.capacity_ < src_offset + src_size) :
    CpuMemory.ReadFrom mem_mgr_DeviceMemoryCopy mem self src_memory src_offset src_size dest_offset
      = (STATUS_INVALID, mem) := by
  unfold CpuMemory.ReadFrom
  rw [if_pos]
  simp only [DeviceMemory.CheckReadFromParam, Bool.and_eq_true, decide_eq_true_eq, not_and]
  omega

/-- An instance of C3: six bytes asked of a source of capacity 4; the copy
routine supplied would have overwritten all of memory had it been called. -/
theorem C3_read_from_out_of_bounds_witness :
    (4 < 0 + 6) ∧
    CpuMemory.ReadFrom (fun _ _ _ _ _ _ _ => (STATUS_OK, fun _ => 255)) (fun _ => 0)
        { device_mem_ptr_ := 4096, offset_ := 0, capacity_ := 16, is_content_mutable_ := true }
        { device_mem_ptr_ := 8192, offset_ := 0, capacity_ := 4, is_content_mutable_ := true }
        0 6 0
      = (STATUS_INVALID, fun _ => 0) :=
  ⟨by decide,
    C3_read_from_out_of_bounds (fun _ _ _ _ _ _ _ => (STATUS_OK, fun _ => 255)) (fun _ => 0)
      { device_mem_ptr_ := 4096, offset_ := 0, capacity_ := 16, is_content_mutable_ := true }
      { device_mem_ptr_ := 8192, offset_ := 0, capacity_ := 4, is_content_mutable_ := true }
      0 6 0 (by decide)⟩

/-- C4, as stated, fails: with a destination of capacity 4, `destOffset = 2` and
`size = 4` (so `destOffset + size` exceeds the capacity) `DeviceMemoryCopy` returns
`STATUS_OK` and the destination byte at offset 2 has changed from 0 to 171. -/
theorem C4_counterexample_copy_past_capacity :
    (4 < 2 + 4) ∧
    (CpuMemoryManager.DeviceMemoryCopy (fun x => if 8192 ≤ x ∧ x < 8200 then 171 else 0)
        { device_mem_ptr_ := 4096, offset_ := 0, capacity_ := 4, is_content_mutable_ := true } 2
        { device_mem_ptr_ := 8192, offset_ := 0, capacity_ := 8, is_content_mutable_ := true } 0 4
        DeviceMemoryCopyKind.ToHost).1 = STATUS_OK ∧
    (CpuMemoryManager.DeviceMemoryCopy (fun x => if 8192 ≤ x ∧ x < 8200 then 171 else 0)
        { device_mem_ptr_ := 4096, offset_ := 0, capacity_ := 4, is_content_mutable_ := true } 2
        { device_mem_ptr_ := 8192, offset_ := 0, capacity_ := 8, is_content_mutable_ := true } 0 4
        DeviceMemoryCopyKind.ToHost).2 4098 = 171 ∧
    (fun x => if 8192 ≤ x ∧ x < 8200 then 171 else 0 : Mem) 4098 = 0 := by
  decide

/-- C4, amended: `DeviceMemoryCopy` checks neither capacity and returns no
invalid-parameter status. Whatever the capacities of the two handles, when both
data pointers are non-null, `1 ≤ size ≤ SECUREC_MEM_MAX_LEN` and the two byte
ranges are apart, it returns `STATUS_OK`, the `size` bytes at the destination
position equal the source bytes and every other byte is unchanged; and in every
call the status is `STATUS_OK` or `STATUS_FAULT`. -/
theorem C4_device_memory_copy_unchecked (mem : Mem) (dest_memory src_memory : DeviceMemory)
    (dest_offset src_offset size : Nat) (kind : DeviceMemoryCopyKind) :
    ((CpuMemoryManager.DeviceMemoryCopy mem dest_memory dest_offset src_memory src_offset size
          kind).1 = STATUS_OK ∨
      (CpuMemoryManager.DeviceMemoryCopy mem dest_memory dest_offset src_memory src_offset size
          kind).1 = STATUS_FAULT) ∧
    (dest_memory.GetPtr + dest_offset ≠ 0 → src_memory.GetConstPtr + src_offset ≠ 0 →
      0 < size → size ≤ SECUREC_MEM_MAX_LEN →
      SECUREC_MEMORY_NO_OVERLAP (dest_memory.GetPtr + dest_offset)
        (src_memory.GetConstPtr + src_offset) size = true →
      (CpuMemoryManager.DeviceMemoryCopy mem dest_memory dest_offset src_memory src_offset size
          kind).1 = STATUS_OK ∧
      (∀ i, i < size →
        (CpuMemoryManager.DeviceMemoryCopy mem dest_memory dest_offset src_memory src_offset size
          kind).2 (dest_memory.GetPtr + dest_offset + i)
          = mem (src_memory.GetConstPtr + src_offset + i)) ∧
      (∀ x, x < dest_memory.GetPtr + dest_offset ∨ dest_memory.GetPtr + dest_offset + size ≤ x →
        (CpuMemoryManager.DeviceMemoryCopy mem dest_memory dest_offset src_memory src_offset size
          kind).2 x = mem x)) := by
  constructor
  · unfold CpuMemoryManager.DeviceMemoryCopy
    dsimp only
    split
    · exact Or.inr rfl
    · exact Or.inl rfl
  · intro hd hs hpos hmax hapart
    unfold CpuMemoryManager.DeviceMemoryCopy
    dsimp only
    rw [memcpy_s_accepts mem _ size _ size hpos (le_refl _) hmax hd hs hapart]
    refine ⟨by simp, fun i hi => ?_, fun x hx => ?_⟩
    · simp only [ne_eq, not_true_eq_false, if_false, memcpy]
      rw [if_pos ⟨by omega, by omega⟩]
      congr 1
      omega
    · simp only [ne_eq, not_true_eq_false, if_false, memcpy]
      rw [if_neg (by omega)]

/-- An instance of C4: four bytes copied to offset 2 of a destination of capacity 4. -/
theorem C4_device_memory_copy_unchecked_witness :
    (CpuMemoryManager.DeviceMemoryCopy (fun x => if 8192 ≤ x ∧ x < 8200 then 171 else 0)
        { device_mem_ptr_ := 4096, offset_ := 0, capacity_ := 4, is_content_mutable_ := true } 2
        { device_mem_ptr_ := 8192, offset_ := 0, capacity_ := 8, is_content_mutable_ := true } 0 4
        DeviceMemoryCopyKind.ToHost).1 = STATUS_OK ∧
    (∀ i, i < 4 →
      (CpuMemoryManager.DeviceMemoryCopy (fun x => if 8192 ≤ x ∧ x < 8200 then 171 else 0)
        { device_mem_ptr_ := 4096, offset_ := 0, capacity_ := 4, is_content_mutable_ := true } 2
        { device_mem_ptr_ := 8192, offset_ := 0, capacity_ := 8, is_content_mutable_ := true } 0 4
        DeviceMemoryCopyKind.ToHost).2
          ((DeviceMemory.GetPtr
            { device_mem_ptr_ := 4096, offset_ := 0, capacity_ := 4,
              is_content_mutable_ := true }) + 2 + i)
        = (fun x => if 8192 ≤ x ∧ x < 8200 then 171 else 0 : Mem)
          ((DeviceMemory.GetConstPtr
            { device_mem_ptr_ := 8192, offset_ := 0, capacity_ := 8,
              is_content_mutable_ := true }) + 0 + i)) :=
  ⟨((C4_device_memory_copy_unchecked (fun x => if 8192 ≤ x ∧ x < 8200 then 171 else 0)
        { device_mem_ptr_ := 4096, offset_ := 0, capacity_ := 4, is_content_mutable_ := true }
        { device_mem_ptr_ := 8192, offset_ := 0, capacity_ := 8, is_content_mutable_ := true }
        2 0 4 DeviceMemoryCopyKind.ToHost).2
      (by decide) (by decide) (by decide) (by decide) (by decide)).1,
    ((C4_device_memory_copy_unchecked (fun x => if 8192 ≤ x ∧ x < 8200 then 171 else 0)
        { device_mem_ptr_ := 4096, offset_ := 0, capacity_ := 4, is_content_mutable_ := true }
        { device_mem_ptr_ := 8192, offset_ := 0, capacity_ := 8, is_content_mutable_ := true }
        2 0 4 DeviceMemoryCopyKind.ToHost).2
      (by decide) (by decide) (by decide) (by decide) (by decide)).2.1⟩

/-- C5, as stated, fails: `Write` of 4 host bytes into a device buffer of 2 bytes
returns `STATUS_FAULT`, not `STATUS_INVALID`, and the 2 destination bytes,
which held 7, are cleared to 0. -/
theorem C5_counterexample_write_too_large :
    (2 < 4) ∧
    (CpuMemoryManager.Write (fun _ => 7) 8192 4 4096 2).1 = STATUS_FAULT ∧
    (CpuMemoryManager.Write (fun _ => 7) 8192 4 4096 2).1 ≠ STATUS_INVALID ∧
    (CpuMemoryManager.Write (fun _ => 7) 8192 4 4096 2).2 4096 = 0 ∧
    (fun _ => 7 : Mem) 4096 = 7 := by
  decide

/-- C5, amended: when the source size exceeds the destination size, `Read` and
`Write` return `STATUS_FAULT` and copy nothing: every byte is afterwards either
as before or cleared to 0. When `1 ≤ source size ≤ destination size ≤
SECUREC_MEM_MAX_LEN`, both pointers are non-null and the source and destination
ranges are apart, they return `STATUS_OK` and the first source-size bytes of the
destination equal the source. -/
theorem C5_read_write_sizes (mem : Mem) (src src_size dest dest_size : Nat) :
    (dest_size < src_size →
      (CpuMemoryManager.Write mem src src_size dest dest_size).1 = STATUS_FAULT ∧
      (CpuMemoryManager.Read mem src src_size dest dest_size).1 = STATUS_FAULT ∧
      (∀ x, (CpuMemoryManager.Write mem src src_size dest dest_size).2 x = mem x
          ∨ (CpuMemoryManager.Write mem src src_size dest dest_size).2 x = 0) ∧
      (∀ x, (CpuMemoryManager.Read mem src src_size dest dest_size).2 x = mem x
          ∨ (CpuMemoryManager.Read mem src src_size dest dest_size).2 x = 0)) ∧
    (0 < src_size → src_size ≤ dest_size → dest_size ≤ SECUREC_MEM_MAX_LEN →
      dest ≠ 0 → src ≠ 0 → SECUREC_MEMORY_NO_OVERLAP dest src src_size = true →
      (CpuMemoryManager.Write mem src src_size dest dest_size).1 = STATUS_OK ∧
      (CpuMemoryManager.Read mem src src_size dest dest_size).1 = STATUS_OK ∧
      (∀ i, i < src_size →
        (CpuMemoryManager.Write mem src src_size dest dest_size).2 (dest + i) = mem (src + i)) ∧
      (∀ i, i < src_size →
        (CpuMemoryManager.Read mem src src_size dest dest_size).2 (dest + i) = mem (src + i))) := by
  have hcopy : ∀ m a b c d, CpuMemoryManager.Copy m a b c d
      = (if EOK ≠ (memcpy_s m a b c d).1 then (STATUS_FAULT, (memcpy_s m a b c d).2)
          else (STATUS_OK, (memcpy_s m a b c d).2)) := fun _ _ _ _ _ => rfl
  constructor
  · intro hlt
    have hrej := memcpy_s_rejects mem dest dest_size src src_size hlt
    have hne : EOK ≠ (memcpy_s mem dest dest_size src src_size).1 := fun e => hrej.1 e.symm
    simp only [CpuMemoryManager.Write, CpuMemoryManager.Read, hcopy, if_pos hne]
    exact ⟨trivial, trivial, hrej.2, hrej.2⟩
  · intro hpos hle hmax hd hs hapart
    have hacc := memcpy_s_accepts mem dest dest_size src src_size hpos hle hmax hd hs hapart
    have hcp : ∀ i, i < src_size → memcpy mem dest src src_size (dest + i) = mem (src + i) := by
      intro i hi
      simp only [memcpy]
      rw [if_pos ⟨by omega, by omega⟩]
      congr 1
      omega
    simp only [CpuMemoryManager.Write, CpuMemoryManager.Read, hcopy, hacc, ne_eq,
      not_true_eq_false, if_false]
    exact ⟨trivial, trivial, hcp, hcp⟩

/-- An instance of C5: both halves, on 4 bytes against 2 and on 2 bytes against 4. -/
theorem C5_read_write_sizes_witness :
    ((CpuMemoryManager.Write (fun _ => 7) 8192 4 4096 2).1 = STATUS_FAULT ∧
      (CpuMemoryManager.Read (fun _ => 7) 8192 4 4096 2).1 = STATUS_FAULT) ∧
    ((CpuMemoryManager.Write (fun _ => 7) 8192 2 4096 4).1 = STATUS_OK ∧
      (CpuMemoryManager.Read (fun _ => 7) 8192 2 4096 4).1 = STATUS_OK) :=
  ⟨⟨((C5_read_write_sizes (fun _ => 7) 8192 4 4096 2).1 (by decide)).1,
      ((C5_read_write_sizes (fun _ => 7) 8192 4 4096 2).1 (by decide)).2.1⟩,
    ⟨((C5_read_write_sizes (fun _ => 7) 8192 2 4096 4).2 (by decide) (by decide) (by decide)
        (by decide) (by decide) (by decide)).1,
      ((C5_read_write_sizes (fun _ => 7) 8192 2 4096 4).2 (by decide) (by decide) (by decide)
        (by decide) (by decide) (by decide)).2.1⟩⟩

/-- C6, as stated, fails at `size = 2 ^ 64 - 8`: the `size_t` sum `size + 8` wraps
to 0, so the pool is asked for 0 bytes. A pool that refuses every request above
`2 ^ 40` bytes would return null for `size + 8` bytes, yet `AllocSharedPtr` returns
the non-null region the pool hands out for 0 bytes. -/
theorem C6_counterexample_size_wraps :
    (fun n => if n ≤ 2 ^ 40 then 4096 else 0 : Nat → Nat) (18446744073709551608 + 8) = 0 ∧
    (CpuMemoryManager.AllocSharedPtr 81985529216486895
        (fun n => if n ≤ 2 ^ 40 then 4096 else 0) (fun _ => 0) 18446744073709551608).1 = 4096 := by
  decide

/-- C6, amended: for every size with `size + 8 < 2 ^ 64`, `AllocSharedPtr(size)` asks
the pool for exactly `size + 8` bytes; if the pool returns null it returns null
and memory is untouched; otherwise it returns the pool's region, the 8 bytes
at offsets `[size, size + 8)` hold `MEM_MAGIC_CODE` and every other byte, the
first `size` bytes included, is as the pool left it. -/
theorem C6_alloc_shared_ptr (MEM_MAGIC_CODE : Nat) (hmagic : MEM_MAGIC_CODE < 2 ^ 64)
    (pool : Nat → Nat) (mem : Mem) (size : Nat) (hsize : size + 8 < 2 ^ 64) :
    (pool (size + 8) = 0 →
      CpuMemoryManager.AllocSharedPtr MEM_MAGIC_CODE pool mem size = (0, mem)) ∧
    (pool (size + 8) ≠ 0 →
      (CpuMemoryManager.AllocSharedPtr MEM_MAGIC_CODE pool mem size).1 = pool (size + 8) ∧
      load_u64 (CpuMemoryManager.AllocSharedPtr MEM_MAGIC_CODE pool mem size).2
          (pool (size + 8) + size) = MEM_MAGIC_CODE ∧
      (∀ i, i < 8 →
        (CpuMemoryManager.AllocSharedPtr MEM_MAGIC_CODE pool mem size).2
          (pool (size + 8) + size + i) = byte_of MEM_MAGIC_CODE i) ∧
      (∀ x, x < pool (size + 8) + size ∨ pool (size + 8) + size + 8 ≤ x →
        (CpuMemoryManager.AllocSharedPtr MEM_MAGIC_CODE pool mem size).2 x = mem x)) := by
  have hmod : (size + 8) % SIZE_T_RANGE = size + 8 := Nat.mod_eq_of_lt hsize
  constructor
  · intro hnull
    simp [CpuMemoryManager.AllocSharedPtr, hmod, hnull]
  · intro hptr
    simp only [CpuMemoryManager.AllocSharedPtr, hmod, if_neg hptr]
    refine ⟨trivial, load_u64_store_u64 _ _ _ hmagic, fun i hi => ?_, fun x hx =>
      store_u64_outside _ _ _ _ hx⟩
    simp only [store_u64]
    rw [if_pos ⟨by omega, by omega⟩]
    congr 1
    omega

/-- An instance of C6: three bytes from a pool that hands out address 4096, and
from a pool that returns null. -/
theorem C6_alloc_shared_ptr_witness :
    ((fun _ => 0 : Nat → Nat) (3 + 8) = 0 ∧
      CpuMemoryManager.AllocSharedPtr 81985529216486895 (fun _ => 0) (fun _ => 0) 3
        = (0, fun _ => 0)) ∧
    ((fun _ => 4096 : Nat → Nat) (3 + 8) ≠ 0 ∧
      (CpuMemoryManager.AllocSharedPtr 81985529216486895 (fun _ => 4096) (fun _ => 0) 3).1
        = 4096 ∧
      load_u64 (CpuMemoryManager.AllocSharedPtr 81985529216486895 (fun _ => 4096)
          (fun _ => 0) 3).2 (4096 + 3) = 81985529216486895) :=
  ⟨⟨by decide,
      (C6_alloc_shared_ptr 81985529216486895 (by norm_num) (fun _ => 0) (fun _ => 0) 3
        (by norm_num)).1 (by decide)⟩,
    ⟨by decide,
      ((C6_alloc_shared_ptr 81985529216486895 (by norm_num) (fun _ => 4096) (fun _ => 0) 3
        (by norm_num)).2 (by decide)).1,
      ((C6_alloc_shared_ptr 81985529216486895 (by norm_num) (fun _ => 4096) (fun _ => 0) 3
        (by norm_num)).2 (by decide)).2.1⟩⟩

/-! ## Properties of the reconnect logic of the video demuxer -/

/-- C7: on a stream context with no retry context stored, `Reconnect` called with
`STATUS_NODATA` returns `STATUS_SUCCESS`, schedules no timer task and runs
`WriteEnd` exactly once; when a demuxer is stored, the output port then holds
exactly one record, the end-of-stream record of that demuxer. -/
theorem C7_reconnect_nodata_without_retry_context (w : World)
    (hnone : w.ctx.DEMUX_RETRY_CONTEXT = none) :
    (VideoDemuxerFlowUnit.Reconnect STATUS_NODATA w).1 = STATUS_SUCCESS ∧
    (VideoDemuxerFlowUnit.Reconnect STATUS_NODATA w).2.timers = w.timers ∧
    (VideoDemuxerFlowUnit.Reconnect STATUS_NODATA w).2.write_end_runs = w.write_end_runs + 1 ∧
    (∀ video_demuxer, w.ctx.DEMUXER_CTX = some video_demuxer →
      (VideoDemuxerFlowUnit.Reconnect STATUS_NODATA w).2.ctx.output
        = [end_packet_of video_demuxer]) := by
  have hrun : VideoDemuxerFlowUnit.Reconnect STATUS_NODATA w
      = (STATUS_SUCCESS, VideoDemuxerFlowUnit.WriteEnd w) := by
    simp [VideoDemuxerFlowUnit.Reconnect, VideoDemuxerFlowUnit.Reconnect.defer, hnone]
  rw [hrun]
  refine ⟨rfl, ?_, ?_, ?_⟩
  · unfold VideoDemuxerFlowUnit.WriteEnd
    dsimp only
    split <;> rfl
  · unfold VideoDemuxerFlowUnit.WriteEnd
    dsimp only
    split <;> rfl
  · intro video_demuxer hd
    unfold VideoDemuxerFlowUnit.WriteEnd
    dsimp only
    rw [hd]

/-- C8: on a stream context with a retry context whose policy, asked after the
incoming status has been recorded, answers `RETRY_NONEED`, `Reconnect` leaves the
incoming status recorded as last process status, returns `STATUS_FAULT`,
schedules no timer task and does not run `WriteEnd` (the output port is
untouched), whatever the incoming status. -/
theorem C8_reconnect_retry_not_applicable (status : Status) (w : World)
    (source_context : SourceContext)
    (hsome : w.ctx.DEMUX_RETRY_CONTEXT = some source_context)
    (hpolicy : (source_context.SetLastProcessStatus status).NeedRetry.1 = RETRY_NONEED) :
    (VideoDemuxerFlowUnit.Reconnect status w).1 = STATUS_FAULT ∧
    (VideoDemuxerFlowUnit.Reconnect status w).2.timers = w.timers ∧
    (VideoDemuxerFlowUnit.Reconnect status w).2.write_end_runs = w.write_end_runs ∧
    (VideoDemuxerFlowUnit.Reconnect status w).2.ctx.output = w.ctx.output ∧
    (VideoDemuxerFlowUnit.Reconnect status w).2.ctx.DEMUX_RETRY_CONTEXT.map
      (fun c => c.last_status_) = some status := by
  have hrun : VideoDemuxerFlowUnit.Reconnect status w
      = (STATUS_FAULT, { w with ctx := { w.ctx with
          DEMUX_RETRY_CONTEXT := some (source_context.SetLastProcessStatus status).NeedRetry.2 } }) := by
    simp [VideoDemuxerFlowUnit.Reconnect, VideoDemuxerFlowUnit.Reconnect.defer, hsome, hpolicy]
  rw [hrun]
  exact ⟨rfl, rfl, rfl, rfl, rfl⟩

/-- An instance of C7: a context with a demuxer and no retry context. -/
theorem C7_reconnect_nodata_without_retry_context_witness :
    (sample_world none (some sample_demuxer)).ctx.DEMUX_RETRY_CONTEXT = none ∧
    (VideoDemuxerFlowUnit.Reconnect STATUS_NODATA (sample_world none (some sample_demuxer))).1
      = STATUS_SUCCESS ∧
    (VideoDemuxerFlowUnit.Reconnect STATUS_NODATA
      (sample_world none (some sample_demuxer))).2.timers = [] ∧
    (VideoDemuxerFlowUnit.Reconnect STATUS_NODATA
      (sample_world none (some sample_demuxer))).2.write_end_runs = 0 + 1 :=
  ⟨rfl,
    (C7_reconnect_nodata_without_retry_context (sample_world none (some sample_demuxer)) rfl).1,
    (C7_reconnect_nodata_without_retry_context (sample_world none (some sample_demuxer)) rfl).2.1,
    (C7_reconnect_nodata_without_retry_context (sample_world none (some sample_demuxer))
      rfl).2.2.1⟩

/-- An instance of C8: a policy that answers `RETRY_NONEED`, incoming status `STATUS_NODATA`. -/
theorem C8_reconnect_retry_not_applicable_witness :
    ((sample_world (some (sample_source_context RETRY_NONEED))
        (some sample_demuxer)).ctx.DEMUX_RETRY_CONTEXT
        = some (sample_source_context RETRY_NONEED) ∧
      ((sample_source_context RETRY_NONEED).SetLastProcessStatus STATUS_NODATA).NeedRetry.1
        = RETRY_NONEED) ∧
    (VideoDemuxerFlowUnit.Reconnect STATUS_NODATA
      (sample_world (some (sample_source_context RETRY_NONEED)) (some sample_demuxer))).1
      = STATUS_FAULT :=
  ⟨⟨rfl, rfl⟩,
    (C8_reconnect_retry_not_applicable STATUS_NODATA
      (sample_world (some (sample_source_context RETRY_NONEED)) (some sample_demuxer))
      (sample_source_context RETRY_NONEED) rfl rfl).1⟩

/-- C9: on a stream context with a retry context whose policy, asked after the
incoming status has been recorded, answers neither `RETRY_NONEED` nor `RETRY_STOP`,
`Reconnect` leaves the incoming status recorded in the retry context, appends
exactly one entry to the timer queue, the context's timer task with the
policy's `GetRetryInterval()` as delay, does not run `WriteEnd` and returns
`STATUS_CONTINUE`. In every other case, no retry context or an answer
`RETRY_NONEED` or `RETRY_STOP`, the timer queue is unchanged. -/
theorem C9_reconnect_schedules_retry (status : Status) (w : World) :
    (∀ source_context : SourceContext, w.ctx.DEMUX_RETRY_CONTEXT = some source_context →
      (source_context.SetLastProcessStatus status).NeedRetry.1 ≠ RETRY_NONEED →
      (source_context.SetLastProcessStatus status).NeedRetry.1 ≠ RETRY_STOP →
      (VideoDemuxerFlowUnit.Reconnect status w).1 = STATUS_CONTINUE ∧
      (VideoDemuxerFlowUnit.Reconnect status w).2.timers
        = w.timers ++ [{ task := w.ctx.DEMUX_TIMER_TASK,
                         delay := (source_context.SetLastProcessStatus
                           status).NeedRetry.2.GetRetryInterval,
                         period := 0 }] ∧
      (VideoDemuxerFlowUnit.Reconnect status w).2.write_end_runs = w.write_end_runs ∧
      (VideoDemuxerFlowUnit.Reconnect status w).2.ctx.output = w.ctx.output ∧
      (VideoDemuxerFlowUnit.Reconnect status w).2.ctx.DEMUX_RETRY_CONTEXT.map
        (fun c => c.last_status_) = some status) ∧
    ((w.ctx.DEMUX_RETRY_CONTEXT = none ∨
        ∃ source_context : SourceContext, w.ctx.DEMUX_RETRY_CONTEXT = some source_context ∧
          ((source_context.SetLastProcessStatus status).NeedRetry.1 = RETRY_NONEED ∨
            (source_context.SetLastProcessStatus status).NeedRetry.1 = RETRY_STOP)) →
      (VideoDemuxerFlowUnit.Reconnect status w).2.timers = w.timers) := by
  have hend : ∀ v : World, (VideoDemuxerFlowUnit.WriteEnd v).timers = v.timers := by
    intro v
    unfold VideoDemuxerFlowUnit.WriteEnd
    dsimp only
    split <;> rfl
  constructor
  · intro source_context hsome hneed hstop
    have hrun : VideoDemuxerFlowUnit.Reconnect status w
        = (STATUS_CONTINUE,
            TimerGlobal.Schedule
              { w with ctx := { w.ctx with
                  DEMUX_RETRY_CONTEXT := some (source_context.SetLastProcessStatus status).NeedRetry.2 } }
              w.ctx.DEMUX_TIMER_TASK
              (source_context.SetLastProcessStatus status).NeedRetry.2.GetRetryInterval 0) := by
      simp [VideoDemuxerFlowUnit.Reconnect, VideoDemuxerFlowUnit.Reconnect.defer, hsome, hneed,
        hstop]
    rw [hrun]
    exact ⟨rfl, rfl, rfl, rfl, rfl⟩
  · rintro (hnone | ⟨source_context, hsome, hneed | hstop⟩)
    · by_cases hs : status = STATUS_NODATA
      · simp [VideoDemuxerFlowUnit.Reconnect, VideoDemuxerFlowUnit.Reconnect.defer, hnone, hs,
          hend]
      · simp [VideoDemuxerFlowUnit.Reconnect, VideoDemuxerFlowUnit.Reconnect.defer, hnone, hs]
    · simp [VideoDemuxerFlowUnit.Reconnect, VideoDemuxerFlowUnit.Reconnect.defer, hsome, hneed]
    · simp [VideoDemuxerFlowUnit.Reconnect, VideoDemuxerFlowUnit.Reconnect.defer, hsome, hstop,
        hend]

/-- An instance of C9: a policy that answers `RETRY_NEED` after a `STATUS_FAULT`
schedules the reconnect task one second later, and one that answers `RETRY_STOP`
schedules nothing. -/
theorem C9_reconnect_schedules_retry_witness :
    ((VideoDemuxerFlowUnit.Reconnect STATUS_FAULT
        (sample_world (some (sample_source_context RETRY_NEED)) none)).1 = STATUS_CONTINUE ∧
      (VideoDemuxerFlowUnit.Reconnect STATUS_FAULT
        (sample_world (some (sample_source_context RETRY_NEED)) none)).2.timers
        = [] ++ [{ task := some { name_ := "DemuxerReconnect" }, delay := 1000, period := 0 }]) ∧
    (VideoDemuxerFlowUnit.Reconnect STATUS_FAULT
      (sample_world (some (sample_source_context RETRY_STOP)) (some sample_demuxer))).2.timers
      = [] :=
  ⟨⟨((C9_reconnect_schedules_retry STATUS_FAULT
        (sample_world (some (sample_source_context RETRY_NEED)) none)).1
        (sample_source_context RETRY_NEED) rfl (by decide) (by decide)).1,
      ((C9_reconnect_schedules_retry STATUS_FAULT
        (sample_world (some (sample_source_context RETRY_NEED)) none)).1
        (sample_source_context RETRY_NEED) rfl (by decide) (by decide)).2.1⟩,
    (C9_reconnect_schedules_retry STATUS_FAULT
      (sample_world (some (sample_source_context RETRY_STOP)) (some sample_demuxer))).2
      (Or.inr ⟨sample_source_context RETRY_STOP, rfl, Or.inr rfl⟩)⟩

/-- Whenever the timer callback runs with the flow unit and the data context
alive on a context that holds a retry context, the status it records is
`STATUS_FAULT`, whatever the media library answers. -/
theorem ReconnectCallback_records_fault (ff : Ffmpeg) (w : World) (source_context : SourceContext)
    (hsome : w.ctx.DEMUX_RETRY_CONTEXT = some source_context) :
    (VideoDemuxerFlowUnit.ReconnectCallback ff true true w).ctx.DEMUX_RETRY_CONTEXT.map
      (fun c => c.last_status_) = some STATUS_FAULT := by
  simp [VideoDemuxerFlowUnit.ReconnectCallback, hsome, DataContext.SendEvent,
    SourceContext.SetLastProcessStatus]

/-- C10 at a failing input: the timer fires with the flow unit and the data
context alive, the source locator present and a media library on which the
re-initialisation succeeds. `InitDemuxer` returns `STATUS_SUCCESS` and stores the
demuxer, yet the last process status recorded afterwards is `STATUS_FAULT`. -/
theorem C10_callback_records_fault_after_success :
    (sample_source_context RETRY_NEED).GetSourceURL = some "rtsp://camera/stream" ∧
    (VideoDemuxerFlowUnit.InitDemuxer sample_ffmpeg
      (sample_world (some (sample_source_context RETRY_NEED)) none) "rtsp://camera/stream").1
      = STATUS_SUCCESS ∧
    (VideoDemuxerFlowUnit.ReconnectCallback sample_ffmpeg true true
      (sample_world (some (sample_source_context RETRY_NEED)) none)).ctx.DEMUXER_CTX.isSome
      = true ∧
    (VideoDemuxerFlowUnit.ReconnectCallback sample_ffmpeg true true
      (sample_world (some (sample_source_context RETRY_NEED)) none)).ctx.DEMUX_RETRY_CONTEXT.map
      (fun c => c.last_status_) = some STATUS_FAULT ∧
    (VideoDemuxerFlowUnit.ReconnectCallback sample_ffmpeg true true
      (sample_world (some (sample_source_context RETRY_NEED)) none)).null_deref = false := by
  refine ⟨rfl, ?_, ?_, ?_, ?_⟩ <;> decide

/-! ## Properties of `Process` and `DataPre` of the video demuxer -/

/-- The fields of the world after `WriteEnd`: one more run, the same timer queue,
one buffer on the output port. -/
theorem WriteEnd_effect (w : World) :
    (VideoDemuxerFlowUnit.WriteEnd w).write_end_runs = w.write_end_runs + 1 ∧
    (VideoDemuxerFlowUnit.WriteEnd w).timers = w.timers ∧
    (VideoDemuxerFlowUnit.WriteEnd w).ctx.output.length = 1 ∧
    (VideoDemuxerFlowUnit.WriteEnd w).null_deref
      = (w.null_deref || w.ctx.DEMUXER_CTX.isNone) := by
  unfold VideoDemuxerFlowUnit.WriteEnd
  dsimp only
  cases hd : w.ctx.DEMUXER_CTX <;> simp

/-- C11: when a demuxer is present and `Demux` returns `STATUS_OK`, `Process` returns
`STATUS_CONTINUE`; the output port holds exactly one buffer, the data record of
the packet; exactly one event has been sent; and nothing else has changed but
the position of the demuxer: `Reconnect` is not called, the timer queue and the
retry context are untouched and `WriteEnd` has not run. -/
theorem C11_process_emits_one_item (w : World) (video_demuxer : FfmpegVideoDemuxer)
    (hsome : w.ctx.DEMUXER_CTX = some video_demuxer)
    (hok : video_demuxer.Demux.1 = STATUS_OK) :
    VideoDemuxerFlowUnit.Process w
      = (STATUS_CONTINUE,
          { w with ctx := { w.ctx with
              DEMUXER_CTX := some video_demuxer.Demux.2.2,
              output := [data_packet_of video_demuxer.Demux.2.1 video_demuxer.Demux.2.2],
              events_sent := w.ctx.events_sent + 1 } }) ∧
    (VideoDemuxerFlowUnit.Process w).2.ctx.output.length = 1 ∧
    (VideoDemuxerFlowUnit.Process w).2.ctx.events_sent = w.ctx.events_sent + 1 ∧
    (VideoDemuxerFlowUnit.Process w).2.timers = w.timers ∧
    (VideoDemuxerFlowUnit.Process w).2.write_end_runs = w.write_end_runs := by
  have hrun : VideoDemuxerFlowUnit.Process w
      = (STATUS_CONTINUE,
          { w with ctx := { w.ctx with
              DEMUXER_CTX := some video_demuxer.Demux.2.2,
              output := [data_packet_of video_demuxer.Demux.2.1 video_demuxer.Demux.2.2],
              events_sent := w.ctx.events_sent + 1 } }) := by
    unfold VideoDemuxerFlowUnit.Process
    rw [hsome]
    simp [hok, VideoDemuxerFlowUnit.WriteData, Status.toBool, DataContext.SendEvent]
  rw [hrun]
  exact ⟨rfl, rfl, rfl, rfl, rfl⟩

/-- An instance of C11: a demuxer whose next packet is 188 bytes long. -/
theorem C11_process_emits_one_item_witness :
    ((sample_world none (some streaming_demuxer)).ctx.DEMUXER_CTX.isSome = true ∧
      streaming_demuxer.Demux.1 = STATUS_OK) ∧
    (VideoDemuxerFlowUnit.Process (sample_world none (some streaming_demuxer))).2.ctx.output.length
      = 1 ∧
    (VideoDemuxerFlowUnit.Process (sample_world none (some streaming_demuxer))).2.ctx.events_sent
      = 0 + 1 :=
  ⟨⟨rfl, rfl⟩,
    (C11_process_emits_one_item (sample_world none (some streaming_demuxer)) streaming_demuxer
      rfl rfl).2.1,
    (C11_process_emits_one_item (sample_world none (some streaming_demuxer)) streaming_demuxer
      rfl rfl).2.2.1⟩

/-- The run of `Reconnect` when the policy answers `RETRY_STOP`: the status is
recorded, `WriteEnd` runs, the result is `STATUS_SUCCESS`. -/
theorem Reconnect_retry_stop (status : Status) (w : World) (source_context : SourceContext)
    (hsome : w.ctx.DEMUX_RETRY_CONTEXT = some source_context)
    (hstop : (source_context.SetLastProcessStatus status).NeedRetry.1 = RETRY_STOP) :
    VideoDemuxerFlowUnit.Reconnect status w
      = (STATUS_SUCCESS,
          VideoDemuxerFlowUnit.WriteEnd { w with ctx := { w.ctx with
            DEMUX_RETRY_CONTEXT := some (source_context.SetLastProcessStatus status).NeedRetry.2 } }) := by
  simp [VideoDemuxerFlowUnit.Reconnect, VideoDemuxerFlowUnit.Reconnect.defer, hsome, hstop]

/-- C14 at a failing input, the one of C15: no demuxer is stored and the retry
policy answers `RETRY_STOP` to the status `STATUS_FAULT` that `Process` passes. `Process`
reaches `WriteEnd`, which dereferences the null demuxer: the call does not return
`STATUS_SUCCESS`, and what is left on the output port is a bare buffer without
frame rate, duration or time base, not an end-of-stream record. On a context
with the same answer and a demuxer stored, `Process` returns `STATUS_SUCCESS` with
exactly one end-of-stream record, one run of `WriteEnd` and no timer task, as the
claim says. -/
theorem C14_retry_stop_without_demuxer :
    (world_after_failed_retry.ctx.DEMUXER_CTX.isNone = true ∧
      world_after_failed_retry.null_deref = false ∧
      world_after_failed_retry.ctx.DEMUX_RETRY_CONTEXT.map
        (fun c => (c.SetLastProcessStatus STATUS_FAULT).NeedRetry.1) = some RETRY_STOP ∧
      (VideoDemuxerFlowUnit.Process world_after_failed_retry).2.null_deref = true ∧
      (VideoDemuxerFlowUnit.Process world_after_failed_retry).2.ctx.output
        = [{ size := 1, entries := [] }]) ∧
    ((VideoDemuxerFlowUnit.Process
        (sample_world (some (sample_source_context RETRY_STOP)) (some sample_demuxer))).1
        = STATUS_SUCCESS ∧
      (VideoDemuxerFlowUnit.Process
        (sample_world (some (sample_source_context RETRY_STOP))
          (some sample_demuxer))).2.null_deref = false ∧
      (VideoDemuxerFlowUnit.Process
        (sample_world (some (sample_source_context RETRY_STOP))
          (some sample_demuxer))).2.ctx.output = [end_packet_of sample_demuxer] ∧
      (VideoDemuxerFlowUnit.Process
        (sample_world (some (sample_source_context RETRY_STOP))
          (some sample_demuxer))).2.write_end_runs = 1 ∧
      (VideoDemuxerFlowUnit.Process
        (sample_world (some (sample_source_context RETRY_STOP))
          (some sample_demuxer))).2.timers = []) := by
  refine ⟨⟨?_, ?_, ?_, ?_, ?_⟩, ⟨?_, ?_, ?_, ?_, ?_⟩⟩ <;> decide

/-- Whenever `Process` runs on a context with no demuxer whose retry policy
answers `RETRY_STOP` to the status `STATUS_FAULT`, `WriteEnd` runs and reads
through the null demuxer pointer. -/
theorem Process_null_demuxer_retry_stop (w : World) (source_context : SourceContext)
    (hnone : w.ctx.DEMUXER_CTX = none)
    (hsome : w.ctx.DEMUX_RETRY_CONTEXT = some source_context)
    (hstop : (source_context.SetLastProcessStatus STATUS_FAULT).NeedRetry.1 = RETRY_STOP) :
    (VideoDemuxerFlowUnit.Process w).2.write_end_runs = w.write_end_runs + 1 ∧
    (VideoDemuxerFlowUnit.Process w).2.null_deref = true := by
  have hrun : VideoDemuxerFlowUnit.Process w = VideoDemuxerFlowUnit.Reconnect STATUS_FAULT w := by
    unfold VideoDemuxerFlowUnit.Process
    rw [hnone]
  rw [hrun, Reconnect_retry_stop STATUS_FAULT w source_context hsome hstop]
  refine ⟨(WriteEnd_effect _).1, ?_⟩
  rw [(WriteEnd_effect _).2.2.2]
  simp [hnone]

/-- C15 at a failing input: a locator that never opens and a retry policy bounded
to one attempt. `DataPre` returns `STATUS_SUCCESS` with no demuxer stored; the
first `Process` schedules the reconnect task; the timer callback fails to
re-initialise; the second `Process` gets `RETRY_STOP`, returns `STATUS_SUCCESS` and
runs `WriteEnd` while the slot `DEMUXER_CTX` is empty: its reads of the frame
rate, duration and time base go through a null pointer. -/
theorem C15_write_end_without_demuxer :
    (VideoDemuxerFlowUnit.DataPre unreachable_ffmpeg
      (fresh_world (some (bounded_source_context 1)))).1 = STATUS_SUCCESS ∧
    world_after_failed_connect.ctx.DEMUXER_CTX.isNone = true ∧
    (VideoDemuxerFlowUnit.Process world_after_failed_connect).1 = STATUS_CONTINUE ∧
    (VideoDemuxerFlowUnit.Process world_after_failed_connect).2.timers.length = 1 ∧
    world_after_failed_retry.ctx.DEMUXER_CTX.isNone = true ∧
    world_after_failed_retry.write_end_runs = 0 ∧
    world_after_failed_retry.null_deref = false ∧
    (VideoDemuxerFlowUnit.Process world_after_failed_retry).1 = STATUS_SUCCESS ∧
    (VideoDemuxerFlowUnit.Process world_after_failed_retry).2.write_end_runs = 1 ∧
    (VideoDemuxerFlowUnit.Process world_after_failed_retry).2.ctx.DEMUXER_CTX.isNone = true ∧
    (VideoDemuxerFlowUnit.Process world_after_failed_retry).2.null_deref = true := by
  refine ⟨?_, ?_, ?_, ?_, ?_, ?_, ?_, ?_, ?_, ?_, ?_⟩ <;> decide

/-- The status of `InitDemuxer` is `STATUS_SUCCESS` or `STATUS_FAULT`, and after a
success the demuxer is stored. -/
theorem InitDemuxer_status (ff : Ffmpeg) (w : World) (source_url : String) :
    ((VideoDemuxerFlowUnit.InitDemuxer ff w source_url).1 = STATUS_SUCCESS ∧
      (VideoDemuxerFlowUnit.InitDemuxer ff w source_url).2.ctx.DEMUXER_CTX.isSome = true) ∨
    (VideoDemuxerFlowUnit.InitDemuxer ff w source_url).1 = STATUS_FAULT := by
  unfold VideoDemuxerFlowUnit.InitDemuxer
  dsimp only
  split
  · exact Or.inr rfl
  · split
    · exact Or.inr rfl
    · split
      · exact Or.inr rfl
      · exact Or.inl ⟨rfl, rfl⟩

/-- The status of `CreateRetryTask` is `STATUS_OK` or `STATUS_FAULT`; the demuxer
slot is untouched, and after a success the retry context is stored. -/
theorem CreateRetryTask_status (w : World) :
    (VideoDemuxerFlowUnit.CreateRetryTask w).2.ctx.DEMUXER_CTX = w.ctx.DEMUXER_CTX ∧
    (((VideoDemuxerFlowUnit.CreateRetryTask w).1 = STATUS_OK ∧
        (VideoDemuxerFlowUnit.CreateRetryTask w).2.ctx.DEMUX_RETRY_CONTEXT.isSome = true) ∨
      (VideoDemuxerFlowUnit.CreateRetryTask w).1 = STATUS_FAULT) := by
  unfold VideoDemuxerFlowUnit.CreateRetryTask
  cases hm : w.ctx.input_meta with
  | none => exact ⟨rfl, Or.inr rfl⟩
  | some stream_meta =>
    dsimp only
    cases hr : stream_meta.DEMUX_RETRY_CONTEXT with
    | none => exact ⟨rfl, Or.inr rfl⟩
    | some source_context => exact ⟨rfl, Or.inl ⟨rfl, rfl⟩⟩

/-- C16: `DataPre` returns `STATUS_FAULT` if and only if `GetSourceUrl` returns null,
or both `InitDemuxer` and `CreateRetryTask` fail; in every other case it returns
`STATUS_SUCCESS`, and then a demuxer or a retry context is stored. -/
theorem C16_data_pre_status (ff : Ffmpeg) (w : World) :
    ((VideoDemuxerFlowUnit.DataPre ff w).1 = STATUS_FAULT ↔
      (VideoDemuxerFlowUnit.GetSourceUrl w.ctx = none ∨
        ∃ source_url, VideoDemuxerFlowUnit.GetSourceUrl w.ctx = some source_url ∧
          (VideoDemuxerFlowUnit.InitDemuxer ff (VideoDemuxerFlowUnit.DataPre.SetMeta w)
            source_url).1 ≠ STATUS_SUCCESS ∧
          (VideoDemuxerFlowUnit.CreateRetryTask
            (VideoDemuxerFlowUnit.InitDemuxer ff (VideoDemuxerFlowUnit.DataPre.SetMeta w)
              source_url).2).1 ≠ STATUS_OK)) ∧
    ((VideoDemuxerFlowUnit.DataPre ff w).1 ≠ STATUS_FAULT →
      (VideoDemuxerFlowUnit.DataPre ff w).1 = STATUS_SUCCESS ∧
      ((VideoDemuxerFlowUnit.DataPre ff w).2.ctx.DEMUXER_CTX.isSome = true ∨
        (VideoDemuxerFlowUnit.DataPre ff w).2.ctx.DEMUX_RETRY_CONTEXT.isSome = true)) := by
  unfold VideoDemuxerFlowUnit.DataPre
  cases hurl : VideoDemuxerFlowUnit.GetSourceUrl w.ctx with
  | none => simp
  | some url =>
    dsimp only
    have hinit := InitDemuxer_status ff (VideoDemuxerFlowUnit.DataPre.SetMeta w) url
    have hretry := CreateRetryTask_status
      (VideoDemuxerFlowUnit.InitDemuxer ff (VideoDemuxerFlowUnit.DataPre.SetMeta w) url).2
    rcases hinit with ⟨hi, hdem⟩ | hi <;> rcases hretry with ⟨hkeep, ⟨hr, hctx⟩ | hr⟩
    · simp [hi, hr, Status.toBool, hkeep, hdem]
    · simp [hi, hr, Status.toBool, hkeep, hdem]
    · simp [hi, hr, Status.toBool, hctx]
    · simp [hi, hr, Status.toBool]

/-- An instance of C16: with no retry context on the input, `DataPre` returns
`STATUS_FAULT` on a locator that does not open and `STATUS_SUCCESS` on one that does. -/
theorem C16_data_pre_status_witness :
    (VideoDemuxerFlowUnit.DataPre unreachable_ffmpeg (fresh_world none)).1 = STATUS_FAULT ∧
    (VideoDemuxerFlowUnit.DataPre sample_ffmpeg (fresh_world none)).1 = STATUS_SUCCESS :=
  ⟨(C16_data_pre_status unreachable_ffmpeg (fresh_world none)).1.2
      (Or.inr ⟨"rtsp://camera/stream", rfl, by decide, by decide⟩),
    ((C16_data_pre_status sample_ffmpeg (fresh_world none)).2 (by decide)).1⟩

/-! ## Properties of the buffer metadata and of the resize flow unit -/

/-- The typed lookup hits exactly when the key is present with a value of the
requested type. -/
theorem Collection_find_eq_some {T : Type} (cast : Any → Option T) (c : Collection) (key : String)
    (stored : T) :
    c.find cast key = some stored ↔
      ∃ a, c.entrys_.lookup key = some a ∧ cast a = some stored := by
  unfold Collection.find
  cases c.entrys_.lookup key <;> simp

/-- C13, as stated, fails for a default of another type than the value: with an
`int32_t` value and the `int64_t` default 4294967303 on a key that is not present,
`Get(key, value, d)` leaves `value` equal to 7, not to `d`. -/
theorem C13_counterexample_default_converted :
    (sample_image 1 1 [("height", Any.int32 480)]).meta_.custom_meta_.entrys_.lookup "width"
      = none ∧
    (sample_image 1 1 [("height", Any.int32 480)]).Get_default_value Any.cast_int32
      int64_to_int32 "width" 0 4294967303 = 7 ∧
    (7 : Int) ≠ 4294967303 := by
  decide

/-- C13, amended: for every buffer, key, value and default `d`, `Get(key, value, d)` leaves
`value` equal to the stored metadata value when the key is present with the
requested type, and equal to `d` converted to the type of the value when the
typed lookup misses (the key is absent or holds a value of another type), so
equal to `d` itself when `d` has the type of the value; both overloads are total,
and the two-argument `Get(key, value)` returns `true` exactly when the lookup hits,
then with the stored value in `value`, and leaves `value` alone on a miss. -/
theorem C13_buffer_get {T U : Type} (cast : Any → Option T) (convert : U → T)
    (buf : buffer_h.Buffer) (key : String) (value : T) (d : U) :
    (∀ (a : Any) (stored : T),
      buf.meta_.custom_meta_.entrys_.lookup key = some a → cast a = some stored →
      buf.Get_default_value cast convert key value d = stored ∧
      buf.Get cast key value = (true, stored)) ∧
    ((∀ a : Any, buf.meta_.custom_meta_.entrys_.lookup key = some a → cast a = none) →
      buf.Get_default_value cast convert key value d = convert d ∧
      (∀ d' : T, buf.Get_default_value cast (fun x : T => x) key value d' = d') ∧
      buf.Get cast key value = (false, value)) ∧
    ((buf.Get cast key value).1 = true ↔
      ∃ (a : Any) (stored : T),
        buf.meta_.custom_meta_.entrys_.lookup key = some a ∧ cast a = some stored) := by
  have hget : ∀ v : T, buf.meta_.Get cast key v
      = match (buf.meta_.custom_meta_.entrys_.lookup key).bind cast with
        | some stored => (true, stored)
        | none => (false, v) := fun _ => rfl
  refine ⟨?_, ?_, ?_⟩
  · intro a stored ha hcast
    simp [buffer_h.Buffer.Get_default_value, buffer_h.Buffer.Get, hget, ha, hcast]
  · intro hmiss
    have hnone : (buf.meta_.custom_meta_.entrys_.lookup key).bind cast = none := by
      cases ha : buf.meta_.custom_meta_.entrys_.lookup key with
      | none => rfl
      | some a => simpa using hmiss a ha
    simp [buffer_h.Buffer.Get_default_value, buffer_h.Buffer.Get, hget, hnone]
  · simp only [buffer_h.Buffer.Get, hget]
    cases ha : buf.meta_.custom_meta_.entrys_.lookup key with
    | none => simp
    | some a =>
      cases hc : cast a with
      | none => simp [hc]
      | some stored => simp [hc]

/-- An instance of C13: a buffer whose "height" is the `int32` 480 and whose "pix_fmt" is
a string; the typed lookup of an `int32` hits on the first and misses on the
second, where the `int64` default 4294967303 is converted to 7. -/
theorem C13_buffer_get_witness :
    ((sample_image 1 1 [("height", Any.int32 480), ("pix_fmt", Any.string "rgb")]).Get_default_value
        Any.cast_int32 int64_to_int32 "height" 0 4294967303 = 480 ∧
      (sample_image 1 1 [("height", Any.int32 480), ("pix_fmt", Any.string "rgb")]).Get
        Any.cast_int32 "height" 0 = (true, 480)) ∧
    ((sample_image 1 1 [("height", Any.int32 480), ("pix_fmt", Any.string "rgb")]).Get_default_value
        Any.cast_int32 int64_to_int32 "pix_fmt" 0 4294967303 = int64_to_int32 4294967303 ∧
      (sample_image 1 1 [("height", Any.int32 480), ("pix_fmt", Any.string "rgb")]).Get
        Any.cast_int32 "pix_fmt" 0 = (false, 0)) :=
  ⟨(C13_buffer_get Any.cast_int32 int64_to_int32
      (sample_image 1 1 [("height", Any.int32 480), ("pix_fmt", Any.string "rgb")]) "height" 0
      4294967303).1 (Any.int32 480) 480 (by decide) rfl,
    ((C13_buffer_get Any.cast_int32 int64_to_int32
      (sample_image 1 1 [("height", Any.int32 480), ("pix_fmt", Any.string "rgb")]) "pix_fmt" 0
      4294967303).2.1
      (by
        intro a ha
        have hval : (sample_image 1 1
            [("height", Any.int32 480), ("pix_fmt", Any.string "rgb")]).meta_.custom_meta_.entrys_.lookup
            "pix_fmt" = some (Any.string "rgb") := by decide
        rw [hval] at ha
        cases ha
        rfl)).1,
    ((C13_buffer_get Any.cast_int32 int64_to_int32
      (sample_image 1 1 [("height", Any.int32 480), ("pix_fmt", Any.string "rgb")]) "pix_fmt" 0
      4294967303).2.1
      (by
        intro a ha
        have hval : (sample_image 1 1
            [("height", Any.int32 480), ("pix_fmt", Any.string "rgb")]).meta_.custom_meta_.entrys_.lookup
            "pix_fmt" = some (Any.string "rgb") := by decide
        rw [hval] at ha
        cases ha
        rfl)).2.2⟩

/-- The names of `kCVResizeMethod`. -/
theorem kCVResizeMethod_lookup (name : String) :
    (kCVResizeMethod.lookup name = none ↔
      name ∉ ["inter_nearest", "inter_linear", "inter_cubic", "inter_area", "inter_lanczos4",
        "inter_max", "warp_fill_outliers", "warp_inverse_map"]) := by
  simp [kCVResizeMethod]

/-- C17: `Open` returns `STATUS_BADCONF` if and only if the resolved width is 0, or the
resolved height is 0, or the option "interpolation" (default "inter_linear") is not
one of the eight names of `kCVResizeMethod`; otherwise it returns `STATUS_OK` with
`dest_width_`, `dest_height_` and `interpolation_` set to the resolved width, the
resolved height and the flag that `kCVResizeMethod` gives for the name. -/
theorem C17_open_status (self : CVResizeFlowUnit) (opts : Configuration) :
    ((self.Open opts).1 = STATUS_BADCONF ↔
      (resolved_width opts = 0 ∨ resolved_height opts = 0 ∨
        (opts.string_options "interpolation").getD "inter_linear" ∉
          ["inter_nearest", "inter_linear", "inter_cubic", "inter_area", "inter_lanczos4",
            "inter_max", "warp_fill_outliers", "warp_inverse_map"])) ∧
    ((self.Open opts).1 ≠ STATUS_BADCONF →
      (self.Open opts).1 = STATUS_OK ∧
      ∃ item, kCVResizeMethod.lookup ((opts.string_options "interpolation").getD "inter_linear")
          = some item ∧
        (self.Open opts).2
          = { dest_width_ := resolved_width opts, dest_height_ := resolved_height opts,
              interpolation_ := item }) := by
  have hw : (if opts.GetUint32 "width" 0 = 0 then opts.GetUint32 "image_width" 0
      else opts.GetUint32 "width" 0) = resolved_width opts := by
    unfold resolved_width Configuration.GetUint32
    split <;> simp_all
  have hh : (if opts.GetUint32 "height" 0 = 0 then opts.GetUint32 "image_height" 0
      else opts.GetUint32 "height" 0) = resolved_height opts := by
    unfold resolved_height Configuration.GetUint32
    split <;> simp_all
  unfold CVResizeFlowUnit.Open
  simp only [hw, hh, Configuration.GetString]
  by_cases hdim : resolved_width opts ≤ 0 ∨ resolved_height opts ≤ 0
  · rw [if_pos hdim]
    have hzero : resolved_width opts = 0 ∨ resolved_height opts = 0 := by omega
    refine ⟨⟨fun _ => ?_, fun _ => rfl⟩, fun h => absurd rfl h⟩
    rcases hzero with h | h
    · exact Or.inl h
    · exact Or.inr (Or.inl h)
  · rw [if_neg hdim]
    have hw0 : resolved_width opts ≠ 0 := by omega
    have hh0 : resolved_height opts ≠ 0 := by omega
    cases hitem : kCVResizeMethod.lookup ((opts.string_options "interpolation").getD "inter_linear")
      with
    | none =>
      have hnot := (kCVResizeMethod_lookup _).1 hitem
      exact ⟨⟨fun _ => Or.inr (Or.inr hnot), fun _ => rfl⟩, fun h => absurd rfl h⟩
    | some item =>
      have hin : ¬ ((opts.string_options "interpolation").getD "inter_linear" ∉
          ["inter_nearest", "inter_linear", "inter_cubic", "inter_area", "inter_lanczos4",
            "inter_max", "warp_fill_outliers", "warp_inverse_map"]) := by
        intro hnot
        rw [(kCVResizeMethod_lookup _).2 hnot] at hitem
        cases hitem
      refine ⟨⟨fun h => (by cases h), fun h => ?_⟩, fun _ => ⟨rfl, item, rfl, rfl⟩⟩
      rcases h with h | h | h
      · exact absurd h hw0
      · exact absurd h hh0
      · exact absurd h hin

/-- An instance of C17: 640 by 480 from "image_width" and "image_height" with the default
interpolation is accepted, and a configuration without any option is refused. -/
theorem C17_open_status_witness :
    (sample_resize.Open sample_options).1 = STATUS_OK ∧
    (sample_resize.Open sample_options).2
      = { dest_width_ := 640, dest_height_ := 480, interpolation_ := INTER_LINEAR } ∧
    (sample_resize.Open empty_options).1 = STATUS_BADCONF :=
  ⟨((C17_open_status sample_resize sample_options).2 (by decide)).1,
    by decide,
    (C17_open_status sample_resize empty_options).1.2 (Or.inl (by decide))⟩

end modelbox
